import Mathlib

/-!
Verification of the dryer physics engine in `src/dryer/dryer-physics.js`.

The JavaScript engine is shallowly embedded: JS numbers become real numbers,
the mutable `DryerPhysics` object becomes a state record (`Phys`) threaded
through pure functions, and the two places where the source divides by a
length that can be zero while deriving a unit vector (the wall normal
`-x / ballDist` and the vane normal `distX / dist`) are modelled by
returning `none`, standing for the NaN that IEEE arithmetic would produce
and propagate into the ball state.  Two further JS-specific behaviours are
modelled explicitly where they matter:

* a zero-length vane gives `t = 0/0 = NaN` in JS, and `NaN >= 0` is false,
  so the vane is skipped; the embedding tests `vaneLength = 0` first and
  skips, which is the same observable behaviour;
* the JS `%` operator on numbers is the truncated remainder, `Int.tmod`.

The real-time debounce (`setTimeout`) is modelled by a timer queue with the
idealisation that a timer scheduled for time `t0 + 50` fires before any
collision processed at a time `t ≥ t0 + 50`.
-/

namespace Dryer

noncomputable section

/-- The source's `Math.sqrt(x*x + y*y)`, the Euclidean length of the vector `(x, y)`. -/
def norm2 (x y : ℝ) : ℝ := Real.sqrt (x * x + y * y)

/-- The source's `Math.atan2(y, x)`: the angle of the point `(x, y)`, in `(-π, π]`
(and `0` at the origin), which is exactly `Complex.arg`. -/
def atan2 (y x : ℝ) : ℝ := Complex.arg { re := x, im := y }

/-- Surface kinds generated by `updateSurfaces` (`'drum'`, `'vane_leading'`,
`'vane_trailing'` in the source). -/
inductive SurfaceType where
  | drum
  | vaneLeading
  | vaneTrailing
deriving DecidableEq

/-- One entry of the `surfaces` array. -/
structure Surface where
  type : SurfaceType
  id : String
  index : ℤ
  color : String
deriving DecidableEq

/-- The fixed palette in `getSurfaceColor`. -/
def surfaceColors : List String :=
  ["#ff6b6b", "#4ecdc4", "#ffe66d", "#a8e6cf",
   "#ff8b94", "#c7ceea", "#ffd3b6", "#ffaaa5",
   "#dcedc1", "#a8d8ea", "#ffccf9", "#b4f8c8"]

/-- The source's `getSurfaceColor(index)`: `colors[index % colors.length]`. -/
def getSurfaceColor (index : ℕ) : String :=
  surfaceColors.getD (index % surfaceColors.length) ""

/-- The source's `updateSurfaces()`: for each `i < vaneCount` push the drum segment, the
leading vane face and the trailing vane face, with ids
`drum_${i}`, `vane_${i}_lead`, `vane_${i}_trail`. -/
def updateSurfaces (vaneCount : ℕ) : List Surface :=
  (List.range vaneCount).flatMap fun i =>
    [ { type := SurfaceType.drum, id := "drum_" ++ Nat.repr i,
        index := (i : ℤ), color := getSurfaceColor (i * 2) },
      { type := SurfaceType.vaneLeading, id := "vane_" ++ Nat.repr i ++ "_lead",
        index := (i : ℤ), color := getSurfaceColor (i * 2 + 1) },
      { type := SurfaceType.vaneTrailing, id := "vane_" ++ Nat.repr i ++ "_trail",
        index := (i : ℤ), color := getSurfaceColor (i * 2 + 1) } ]

/-- The `this.ball` record. -/
structure Ball where
  x : ℝ
  y : ℝ
  vx : ℝ
  vy : ℝ
  radius : ℝ
  mass : ℝ
  restitution : ℝ
  dragCoeff : ℝ

/-- The getter `ball.area = Math.PI * radius * radius`. -/
def Ball.area (b : Ball) : ℝ := Real.pi * b.radius * b.radius

/-- The simulation state: the fields of the `DryerPhysics` object that the
physics methods read or write. -/
structure Phys where
  rpm : ℝ
  drumRadius : ℝ
  vaneCount : ℤ
  vaneHeight : ℝ
  ball : Ball
  gravity : ℝ
  airDensity : ℝ
  lintTrapEnabled : Bool
  lintTrapThreshold : ℝ
  useQuadraticDrag : Bool
  drumAngle : ℝ
  drumAngularVelocity : ℝ
  segmentIndexOffset : ℤ
  enableCoriolis : Bool
  enableCentrifugal : Bool
  enableAirDrag : Bool
  coriolisSignFlip : ℝ
  surfaces : List Surface
  lastCollisionSurface : Option String

/-- The source's `setParameters(rpm, drumSizeCm, vaneCount, vaneHeightPercent)`:
stores the values (cm→m, percent→fraction, `Math.floor` on `vaneCount`),
recomputes the angular velocity and regenerates the surfaces.
There is no validation of any argument. -/
def setParameters (p : Phys) (rpm drumSizeCm vaneCount vaneHeightPercent : ℝ) : Phys :=
  { p with
    rpm := rpm
    drumRadius := drumSizeCm / 100
    vaneCount := ⌊vaneCount⌋
    vaneHeight := vaneHeightPercent / 100
    drumAngularVelocity := rpm * 2 * Real.pi / 60
    surfaces := updateSurfaces ⌊vaneCount⌋.toNat }

/-- The source's `reset()`: ball to `(0.3 * drumRadius, 0)`, zero velocity, zero drum angle. -/
def reset (p : Phys) : Phys :=
  { p with
    ball := { p.ball with x := p.drumRadius * 0.3, y := 0, vx := 0, vy := 0 }
    drumAngle := 0 }

/-- The state after the constructor runs (field initialisers, then `reset()`,
then `updateSurfaces()`). -/
def initState : Phys :=
  reset
    { rpm := 20, drumRadius := 0.80, vaneCount := 5, vaneHeight := 0.30,
      ball := { x := 0, y := 0, vx := 0, vy := 0, radius := 0.035, mass := 0.058,
                restitution := 0.75, dragCoeff := 0.55 },
      gravity := 9.81, airDensity := 1.225,
      lintTrapEnabled := false, lintTrapThreshold := 0.15,
      useQuadraticDrag := false,
      drumAngle := 0, drumAngularVelocity := 0, segmentIndexOffset := 0,
      enableCoriolis := true, enableCentrifugal := true, enableAirDrag := true,
      coriolisSignFlip := 1, surfaces := updateSurfaces 5,
      lastCollisionSurface := none }

/-- The source's `triggerCollision(surface, velocity)` without the timer side effect:
given the lint-trap configuration and the current debounce slot
(`lastCollisionSurface`), returns the new slot and whether the collision
callbacks were notified. -/
def triggerCollision (lintTrapEnabled : Bool) (lintTrapThreshold : ℝ)
    (lastCollisionSurface : Option String) (id : String) (velocity : ℝ) :
    Option String × Bool :=
  if lintTrapEnabled ∧ velocity < lintTrapThreshold then
    (lastCollisionSurface, false)
  else if lastCollisionSurface = some id then
    (lastCollisionSurface, false)
  else
    (some id, true)

/-- The drum-segment classification in `handleCollisions`, applied to a ball
position `(x, y)`: `atan2`, normalisation into `[0, 2π)`, floor division by
`2π/vaneCount`, JS `%` (truncated remainder), the configured offset, another
JS `%`, and the final `if (segmentIndex < 0) segmentIndex += vaneCount`. -/
def segmentIndexAt (x y : ℝ) (vaneCount segmentIndexOffset : ℤ) : ℤ :=
  let ballAngle := atan2 y x
  let anglePerSegment := 2 * Real.pi / (vaneCount : ℝ)
  let normalizedAngle := if ballAngle < 0 then ballAngle + 2 * Real.pi else ballAngle
  let segmentIndex := Int.tmod ⌊normalizedAngle / anglePerSegment⌋ vaneCount
  let segmentIndex2 := Int.tmod (segmentIndex + segmentIndexOffset) vaneCount
  if segmentIndex2 < 0 then segmentIndex2 + vaneCount else segmentIndex2

/-- The source's `ballDist` in `handleCollisions`. -/
def ballDist (p : Phys) : ℝ := norm2 p.ball.x p.ball.y

/-- Wall penetration depth `ballDist + radius - drumRadius`. -/
def wallPenetration (p : Phys) : ℝ := ballDist p + p.ball.radius - p.drumRadius

/-- Wall normal x component `-ball.x / ballDist` (points toward the centre). -/
def wallNx (p : Phys) : ℝ := -p.ball.x / ballDist p

/-- Wall normal y component `-ball.y / ballDist`. -/
def wallNy (p : Phys) : ℝ := -p.ball.y / ballDist p

/-- Ball x after the wall positional correction `x += nx * penetration`. -/
def wallCorrectedX (p : Phys) : ℝ := p.ball.x + wallNx p * wallPenetration p

/-- Ball y after the wall positional correction. -/
def wallCorrectedY (p : Phys) : ℝ := p.ball.y + wallNy p * wallPenetration p

/-- Normal velocity `vn = vx*nx + vy*ny` at the wall. -/
def wallVn (p : Phys) : ℝ := p.ball.vx * wallNx p + p.ball.vy * wallNy p

/-- The pattern `surfaces.find(s => s.type === … && s.index === …)` followed
by `if (surface) this.triggerCollision(surface, speed)`, shared by the wall
and vane resolution code: looks up the surface, runs the lint-trap/debounce
logic, and returns the updated state together with the emitted events. -/
def emitCollision (p1 : Phys) (stype : SurfaceType) (idx : ℤ) (speed : ℝ) :
    Phys × List (String × ℝ) :=
  match p1.surfaces.find? (fun s => decide (s.type = stype ∧ s.index = idx)) with
  | some sur =>
    let r := triggerCollision p1.lintTrapEnabled p1.lintTrapThreshold
      p1.lastCollisionSurface sur.id speed
    ({ p1 with lastCollisionSurface := r.1 }, if r.2 then [(sur.id, speed)] else [])
  | none => (p1, [])

/-- The ball after the wall's positional correction and velocity reflection
`v -= (1 + restitution) * vn * n`. -/
def wallReflected (p : Phys) : Phys :=
  { p with ball := { p.ball with
      x := wallCorrectedX p, y := wallCorrectedY p,
      vx := p.ball.vx - (1 + p.ball.restitution) * wallVn p * wallNx p,
      vy := p.ball.vy - (1 + p.ball.restitution) * wallVn p * wallNy p } }

/-- The drum-wall test and resolution: the first half of `handleCollisions`.
Returns the updated state and the list of emitted collision events
`(surface id, impact speed)`; `none` models the NaN the source produces when
it divides by `ballDist = 0` to build the wall normal. -/
def wallPhase (p : Phys) : Option (Phys × List (String × ℝ)) :=
  if ballDist p + p.ball.radius > p.drumRadius then
    if ballDist p = 0 then none
    else if wallVn p < 0 then
      some (emitCollision (wallReflected p) SurfaceType.drum
        (segmentIndexAt (wallCorrectedX p) (wallCorrectedY p) p.vaneCount p.segmentIndexOffset)
        |wallVn p|)
    else
      some ({ p with ball := { p.ball with x := wallCorrectedX p, y := wallCorrectedY p } }, [])
  else
    some (p, [])

/-- The source's `vaneInnerRadius = drumRadius * (1 - vaneHeight)`. -/
def vaneInnerRadius (p : Phys) : ℝ := p.drumRadius * (1 - p.vaneHeight)

/-- Vane `i` direction angle `(i / vaneCount) * 2π`. -/
def vaneAngle (p : Phys) (i : ℕ) : ℝ := ((i : ℝ) / (p.vaneCount : ℝ)) * (2 * Real.pi)

/-- Inner endpoint x of vane `i`. -/
def vaneX1 (p : Phys) (i : ℕ) : ℝ := vaneInnerRadius p * Real.cos (vaneAngle p i)

/-- Inner endpoint y of vane `i`. -/
def vaneY1 (p : Phys) (i : ℕ) : ℝ := vaneInnerRadius p * Real.sin (vaneAngle p i)

/-- Outer endpoint x of vane `i`. -/
def vaneX2 (p : Phys) (i : ℕ) : ℝ := p.drumRadius * Real.cos (vaneAngle p i)

/-- Outer endpoint y of vane `i`. -/
def vaneY2 (p : Phys) (i : ℕ) : ℝ := p.drumRadius * Real.sin (vaneAngle p i)

/-- The source's `dx = ball.x - vx1`. -/
def vaneDx (p : Phys) (i : ℕ) : ℝ := p.ball.x - vaneX1 p i

/-- The source's `dy = ball.y - vy1`. -/
def vaneDy (p : Phys) (i : ℕ) : ℝ := p.ball.y - vaneY1 p i

/-- Vane direction vector x component `vdx = vx2 - vx1`. -/
def vaneVdx (p : Phys) (i : ℕ) : ℝ := vaneX2 p i - vaneX1 p i

/-- Vane direction vector y component. -/
def vaneVdy (p : Phys) (i : ℕ) : ℝ := vaneY2 p i - vaneY1 p i

/-- The source's `vaneLength = Math.sqrt(vdx*vdx + vdy*vdy)`. -/
def vaneLength (p : Phys) (i : ℕ) : ℝ := norm2 (vaneVdx p i) (vaneVdy p i)

/-- Projection parameter `t = (dx*vdx + dy*vdy) / (vaneLength * vaneLength)`. -/
def vaneT (p : Phys) (i : ℕ) : ℝ :=
  (vaneDx p i * vaneVdx p i + vaneDy p i * vaneVdy p i) / (vaneLength p i * vaneLength p i)

/-- Closest point x on the vane line, `vx1 + t * vdx`. -/
def vaneClosestX (p : Phys) (i : ℕ) : ℝ := vaneX1 p i + vaneT p i * vaneVdx p i

/-- Closest point y on the vane line. -/
def vaneClosestY (p : Phys) (i : ℕ) : ℝ := vaneY1 p i + vaneT p i * vaneVdy p i

/-- The source's `distX = ball.x - closestX`. -/
def vaneDistX (p : Phys) (i : ℕ) : ℝ := p.ball.x - vaneClosestX p i

/-- The source's `distY = ball.y - closestY`. -/
def vaneDistY (p : Phys) (i : ℕ) : ℝ := p.ball.y - vaneClosestY p i

/-- Distance from the ball centre to the closest point, `Math.sqrt(distX² + distY²)`. -/
def vaneDist (p : Phys) (i : ℕ) : ℝ := norm2 (vaneDistX p i) (vaneDistY p i)

/-- Vane collision normal x component `distX / dist`. -/
def vaneNx (p : Phys) (i : ℕ) : ℝ := vaneDistX p i / vaneDist p i

/-- Vane collision normal y component `distY / dist`. -/
def vaneNy (p : Phys) (i : ℕ) : ℝ := vaneDistY p i / vaneDist p i

/-- Normal velocity at vane `i`, `vn = vx*nx + vy*ny`. -/
def vaneVn (p : Phys) (i : ℕ) : ℝ := p.ball.vx * vaneNx p i + p.ball.vy * vaneNy p i

/-- Perpendicular-to-vane x component `-vdy / vaneLength` (for side classification). -/
def vanePerpX (p : Phys) (i : ℕ) : ℝ := -vaneVdy p i / vaneLength p i

/-- Perpendicular-to-vane y component `vdx / vaneLength`. -/
def vanePerpY (p : Phys) (i : ℕ) : ℝ := vaneVdx p i / vaneLength p i

/-- Vane penetration depth `radius - dist`. -/
def vanePenetration (p : Phys) (i : ℕ) : ℝ := p.ball.radius - vaneDist p i

/-- Ball x after the vane positional correction `x += nx * penetration`. -/
def vaneCorrectedX (p : Phys) (i : ℕ) : ℝ := p.ball.x + vaneNx p i * vanePenetration p i

/-- Ball y after the vane positional correction. -/
def vaneCorrectedY (p : Phys) (i : ℕ) : ℝ := p.ball.y + vaneNy p i * vanePenetration p i

/-- The side classification: leading face if `(dx, dy) · perp > 0`, else trailing. -/
def vaneSide (p : Phys) (i : ℕ) : SurfaceType :=
  if vaneDx p i * vanePerpX p i + vaneDy p i * vanePerpY p i > 0
  then SurfaceType.vaneLeading else SurfaceType.vaneTrailing

/-- The ball after vane `i`'s positional correction and velocity reflection. -/
def vaneReflected (p : Phys) (i : ℕ) : Phys :=
  { p with ball := { p.ball with
      x := vaneCorrectedX p i, y := vaneCorrectedY p i,
      vx := p.ball.vx - (1 + p.ball.restitution) * vaneVn p i * vaneNx p i,
      vy := p.ball.vy - (1 + p.ball.restitution) * vaneVn p i * vaneNy p i } }

/-- One iteration of the vane loop in `checkVaneCollisions`.  A zero-length
vane makes the JS projection parameter NaN, which fails the `t >= 0 && t <= 1`
guard, so the vane is skipped; `none` models the NaN produced by dividing by
`dist = 0` when the ball centre lies exactly on the vane segment. -/
def vaneStep (p : Phys) (i : ℕ) : Option (Phys × List (String × ℝ)) :=
  if vaneLength p i = 0 then some (p, [])
  else if 0 ≤ vaneT p i ∧ vaneT p i ≤ 1 then
    if vaneDist p i < p.ball.radius then
      if vaneDist p i = 0 then none
      else if vaneVn p i < 0 then
        some (emitCollision (vaneReflected p i) (vaneSide p i) (i : ℤ) |vaneVn p i|)
      else
        some ({ p with ball := { p.ball with
          x := vaneCorrectedX p i, y := vaneCorrectedY p i } }, [])
    else some (p, [])
  else some (p, [])

/-- The source's `checkVaneCollisions()`: the vane loop `for (i = 0; i < vaneCount; i++)`. -/
def checkVaneCollisions (p : Phys) : Option (Phys × List (String × ℝ)) :=
  (List.range p.vaneCount.toNat).foldl
    (fun acc i =>
      acc.bind fun pe => (vaneStep pe.1 i).map fun pe2 => (pe2.1, pe.2 ++ pe2.2))
    (some (p, []))

/-- The source's `handleCollisions()`: the wall test, then the vane loop. -/
def handleCollisions (p : Phys) : Option (Phys × List (String × ℝ)) :=
  (wallPhase p).bind fun pe =>
    (checkVaneCollisions pe.1).map fun pe2 => (pe2.1, pe.2 ++ pe2.2)

/-- The centrifugal acceleration computed in `step`, including the
`distFromCenter > 0.0001` guard. -/
def centrifugalAccel (p : Phys) : ℝ × ℝ :=
  if p.enableCentrifugal then
    let dist := norm2 p.ball.x p.ball.y
    if dist > 0.0001 then
      let mag := p.drumAngularVelocity * p.drumAngularVelocity * dist
      (p.ball.x / dist * mag, p.ball.y / dist * mag)
    else (0, 0)
  else (0, 0)

/-- The Coriolis acceleration computed in `step`
(`sign = this.coriolisSignFlip || 1`: JS `||` replaces `0` by `1`). -/
def coriolisAccel (p : Phys) : ℝ × ℝ :=
  if p.enableCoriolis then
    let sign := if p.coriolisSignFlip = 0 then 1 else p.coriolisSignFlip
    (sign * 2 * p.drumAngularVelocity * p.ball.vy,
     sign * -2 * p.drumAngularVelocity * p.ball.vx)
  else (0, 0)

/-- The integration half of `step(dt)`: advance the drum angle, accumulate
gravity, centrifugal, Coriolis and drag, update velocity and position.
The linear drag model multiplies the velocity in place (the Coriolis term is
computed from the undamped velocity, as in the source); the quadratic model
contributes an acceleration. -/
def integrate (p : Phys) (dt : ℝ) : Phys :=
  let p0 : Phys := { p with drumAngle := p.drumAngle + p.drumAngularVelocity * dt }
  let gravityX := -p0.gravity * Real.sin p0.drumAngle
  let gravityY := -p0.gravity * Real.cos p0.drumAngle
  let cf := centrifugalAccel p0
  let co := coriolisAccel p0
  let speed := norm2 p0.ball.vx p0.ball.vy
  let damped : ℝ × ℝ :=
    if p0.enableAirDrag ∧ speed > 0.001 ∧ ¬p0.useQuadraticDrag then
      (p0.ball.vx * Real.exp (-(0.1) * dt), p0.ball.vy * Real.exp (-(0.1) * dt))
    else (p0.ball.vx, p0.ball.vy)
  let drag : ℝ × ℝ :=
    if p0.enableAirDrag ∧ speed > 0.001 ∧ p0.useQuadraticDrag then
      let mag := 0.5 * p0.airDensity * speed * speed * p0.ball.dragCoeff * p0.ball.area
        / p0.ball.mass
      (-(p0.ball.vx / speed) * mag, -(p0.ball.vy / speed) * mag)
    else (0, 0)
  let ax := gravityX + cf.1 + co.1 + drag.1
  let ay := gravityY + cf.2 + co.2 + drag.2
  let vx1 := damped.1 + ax * dt
  let vy1 := damped.2 + ay * dt
  let x1 := p0.ball.x + vx1 * dt
  let y1 := p0.ball.y + vy1 * dt
  { p0 with ball := { p0.ball with x := x1, y := y1, vx := vx1, vy := vy1 } }

/-- The source's `step(dt)`: integration, then `handleCollisions()`. -/
def step (p : Phys) (dt : ℝ) : Option (Phys × List (String × ℝ)) :=
  handleCollisions (integrate p dt)

/-- State of the real-time debounce: the current slot
(`lastCollisionSurface`) and the pending `setTimeout` clears. -/
structure DebounceState where
  slot : Option String
  timers : List (ℝ × String)

/-- Fire every pending timer due at or before `now` (in scheduling order):
each clears the slot only if the slot still holds its surface id, exactly as
the `setTimeout` callback in `triggerCollision` does. -/
def fireTimers (now : ℝ) (s : DebounceState) : DebounceState :=
  { slot := (s.timers.filter fun tp => decide (tp.1 ≤ now)).foldl
      (fun sl tp => if sl = some tp.2 then none else sl) s.slot,
    timers := s.timers.filter fun tp => decide (¬ tp.1 ≤ now) }

/-- Process one impact at wall-clock time `now` (in milliseconds): fire due
timers, then run `triggerCollision`; an emitted event schedules a clear 50 ms
later.  Returns the new state and whether an event was emitted. -/
def processTrigger (lint : Bool) (thresh : ℝ) (s : DebounceState)
    (now : ℝ) (id : String) (velocity : ℝ) : DebounceState × Bool :=
  let s1 := fireTimers now s
  let r := triggerCollision lint thresh s1.slot id velocity
  if r.2 then ({ slot := r.1, timers := s1.timers ++ [(now + 50, id)] }, true)
  else ({ s1 with slot := r.1 }, false)

/-- Number of events emitted for a chronological list of impacts
`(time, surface id, impact speed)`, starting from a clear debounce state. -/
def runTriggers (lint : Bool) (thresh : ℝ) (evs : List (ℝ × String × ℝ)) : ℕ :=
  (evs.foldl
    (fun acc ev =>
      let r := processTrigger lint thresh acc.1 ev.1 ev.2.1 ev.2.2
      (r.1, acc.2 + if r.2 then 1 else 0))
    (({ slot := none, timers := [] } : DebounceState), 0)).2

/-- The spec's angle normalisation into `[0, 2π)`. -/
def specNormalizeAngle (θ : ℝ) : ℝ := if θ < 0 then θ + 2 * Real.pi else θ

/-- The segment classification exactly as the spec words it: the angular
position `atan2(y, x)` captured on the given (pre-correction) position,
normalised to `[0, 2π)`, floor-divided by `2π/vaneCount`, taken mod
`vaneCount`, plus the configured offset, mod `vaneCount` (mathematical,
non-negative mod). -/
def specWallSegment (x y : ℝ) (vaneCount offset : ℤ) : ℤ :=
  (⌊specNormalizeAngle (atan2 y x) / (2 * Real.pi / (vaneCount : ℝ))⌋ % vaneCount
    + offset) % vaneCount

/-- The spec's clamped projection parameter for vane `i`: `t` clamped to `[0, 1]`. -/
def specVaneClosestT (p : Phys) (i : ℕ) : ℝ := max 0 (min 1 (vaneT p i))

/-- The spec's vane collision predicate: the distance from the ball centre to
the closest point of the finite segment (projection parameter clamped to
`[0,1]`) is less than the ball radius. -/
def specVaneCollides (p : Phys) (i : ℕ) : Prop :=
  norm2 (p.ball.x - (vaneX1 p i + specVaneClosestT p i * vaneVdx p i))
        (p.ball.y - (vaneY1 p i + specVaneClosestT p i * vaneVdy p i)) < p.ball.radius

/-- The branch condition under which `vaneStep` resolves a collision against
vane `i`: non-degenerate vane, projection parameter inside `[0, 1]`, distance
below the ball radius. -/
def vaneResolvesHit (p : Phys) (i : ℕ) : Prop :=
  vaneLength p i ≠ 0 ∧ (0 ≤ vaneT p i ∧ vaneT p i ≤ 1) ∧ vaneDist p i < p.ball.radius

end

end Dryer
namespace Dryer

noncomputable section

/-! ### Basic facts about `norm2`, `atan2` and the JS remainder -/

lemma norm2_nonneg (x y : ℝ) : 0 ≤ norm2 x y := Real.sqrt_nonneg _

lemma norm2_mul_self (x y : ℝ) : norm2 x y * norm2 x y = x * x + y * y :=
  Real.mul_self_sqrt (add_nonneg (mul_self_nonneg x) (mul_self_nonneg y))

lemma norm2_eq_of (x y c : ℝ) (hc : 0 ≤ c) (h : x * x + y * y = c * c) : norm2 x y = c := by
  rw [norm2, h, Real.sqrt_mul_self hc]

lemma norm2_scale (k x y : ℝ) : norm2 (x * k) (y * k) = norm2 x y * |k| := by
  rw [norm2, show x * k * (x * k) + y * k * (y * k) = (x * x + y * y) * (k * k) by ring,
    Real.sqrt_mul (add_nonneg (mul_self_nonneg x) (mul_self_nonneg y)),
    Real.sqrt_mul_self_eq_abs, norm2]

lemma atan2_bounds (y x : ℝ) : -Real.pi < atan2 y x ∧ atan2 y x ≤ Real.pi :=
  ⟨Complex.neg_pi_lt_arg _, Complex.arg_le_pi _⟩

lemma atan2_scale (y x k : ℝ) (hk : 0 < k) : atan2 (y * k) (x * k) = atan2 y x := by
  have hz : ({ re := x * k, im := y * k } : ℂ) = (k : ℂ) * { re := x, im := y } := by
    apply Complex.ext <;>
      simp [Complex.mul_re, Complex.mul_im, Complex.ofReal_re, Complex.ofReal_im] <;> ring
  rw [atan2, hz, Complex.arg_real_mul _ hk, atan2]

lemma neg_lt_tmod (a : ℤ) {n : ℤ} (hn : 0 < n) : -n < Int.tmod a n := by
  have hofNat : ∀ j : ℕ, Int.ofNat j = (j : ℤ) := fun _ => rfl
  rcases a with m | m
  · calc -n < 0 := by omega
    _ ≤ Int.tmod (Int.ofNat m) n := Int.tmod_nonneg n (by rw [hofNat]; exact_mod_cast Nat.zero_le m)
  · rcases n with k | k
    · have hk : 0 < k := by rw [hofNat] at hn; exact_mod_cast hn
      have he : Int.tmod (Int.negSucc m) (Int.ofNat k) = -((m.succ % k : ℕ) : ℤ) := rfl
      rw [he, hofNat]
      have := Nat.mod_lt m.succ hk
      omega
    · exact absurd hn (by exact Int.not_lt.mpr (Int.le_of_lt (Int.negSucc_lt_zero k)))

lemma tmod_emod (a n : ℤ) : Int.tmod a n % n = a % n := by
  rw [Int.tmod_def, show a - n * a.tdiv n = a + -(a.tdiv n) * n from by ring,
    Int.add_mul_emod_self]

/-- The JS pattern `m = a % n; if (m < 0) m += n` computes the mathematical
(Euclidean) remainder. -/
lemma tmod_fix (a n : ℤ) (hn : 0 < n) :
    (if Int.tmod a n < 0 then Int.tmod a n + n else Int.tmod a n) = a % n := by
  have h1 := Int.tmod_lt_of_pos a hn
  have h2 := neg_lt_tmod a hn
  have h3 := tmod_emod a n
  split
  · rw [← h3, ← Int.add_mul_emod_self_left (Int.tmod a n) n 1,
      Int.emod_eq_of_lt (by omega) (by omega)]
    ring_nf
  · rw [← h3, Int.emod_eq_of_lt (by omega) h1]

/-! ### Segment classification -/

lemma specNormalizeAngle_mem (θ : ℝ) (h1 : -Real.pi < θ) (h2 : θ ≤ Real.pi) :
    0 ≤ specNormalizeAngle θ ∧ specNormalizeAngle θ < 2 * Real.pi := by
  have hπ := Real.pi_pos
  rw [specNormalizeAngle]
  split <;> constructor <;> linarith

lemma segmentIndexAt_eq_spec (x y : ℝ) (n off : ℤ) (hn : 1 ≤ n) :
    segmentIndexAt x y n off = specWallSegment x y n off
    ∧ 0 ≤ segmentIndexAt x y n off ∧ segmentIndexAt x y n off < n := by
  have hπ := Real.pi_pos
  have hb := atan2_bounds y x
  have hn0 : (0:ℤ) < n := by omega
  have hnR : (0:ℝ) < (n:ℝ) := by exact_mod_cast hn0
  have haps : 0 < 2 * Real.pi / (n:ℝ) := by positivity
  obtain ⟨hge, hlt⟩ := specNormalizeAngle_mem (atan2 y x) hb.1 hb.2
  have hfl0 : 0 ≤ ⌊specNormalizeAngle (atan2 y x) / (2 * Real.pi / (n:ℝ))⌋ :=
    Int.floor_nonneg.mpr (by positivity)
  have hfln : ⌊specNormalizeAngle (atan2 y x) / (2 * Real.pi / (n:ℝ))⌋ < n := by
    apply Int.floor_lt.mpr
    rw [div_lt_iff₀ haps]
    calc specNormalizeAngle (atan2 y x) < 2 * Real.pi := hlt
    _ = (n:ℝ) * (2 * Real.pi / (n:ℝ)) := by field_simp
  have hcode : segmentIndexAt x y n off
      = (⌊specNormalizeAngle (atan2 y x) / (2 * Real.pi / (n:ℝ))⌋ + off) % n := by
    simp only [segmentIndexAt]
    rw [show (if atan2 y x < 0 then atan2 y x + 2 * Real.pi else atan2 y x)
        = specNormalizeAngle (atan2 y x) from rfl]
    rw [Int.tmod_eq_of_lt hfl0 hfln, tmod_fix _ _ hn0]
  have hspec : specWallSegment x y n off
      = (⌊specNormalizeAngle (atan2 y x) / (2 * Real.pi / (n:ℝ))⌋ + off) % n := by
    rw [specWallSegment, Int.emod_eq_of_lt hfl0 hfln]
  refine ⟨by rw [hcode, hspec], ?_, ?_⟩
  · rw [hcode]; exact Int.emod_nonneg _ (by omega)
  · rw [hcode]; exact Int.emod_lt_of_pos _ hn0

/-! ### The wall positional correction -/

lemma wallCorrectedX_eq (p : Phys) (hd : ballDist p ≠ 0) :
    wallCorrectedX p = p.ball.x * ((p.drumRadius - p.ball.radius) / ballDist p) := by
  rw [wallCorrectedX, wallNx, wallPenetration]
  field_simp
  ring

lemma wallCorrectedY_eq (p : Phys) (hd : ballDist p ≠ 0) :
    wallCorrectedY p = p.ball.y * ((p.drumRadius - p.ball.radius) / ballDist p) := by
  rw [wallCorrectedY, wallNy, wallPenetration]
  field_simp
  ring

lemma ballDist_pos_of_ne (p : Phys) (hd : ballDist p ≠ 0) : 0 < ballDist p :=
  lt_of_le_of_ne (norm2_nonneg _ _) (Ne.symm hd)

lemma norm2_corrected (p : Phys) (hd : ballDist p ≠ 0) :
    norm2 (wallCorrectedX p) (wallCorrectedY p) = |p.drumRadius - p.ball.radius| := by
  have hdp := ballDist_pos_of_ne p hd
  rw [wallCorrectedX_eq p hd, wallCorrectedY_eq p hd, norm2_scale, abs_div, abs_of_pos hdp]
  rw [show norm2 p.ball.x p.ball.y = ballDist p from rfl]
  field_simp

/-- The source's `emitCollision` only ever touches the `lastCollisionSurface` field. -/
lemma emitCollision_shape (p1 : Phys) (stype : SurfaceType) (idx : ℤ) (speed : ℝ) :
    ∃ slot, (emitCollision p1 stype idx speed).1 = { p1 with lastCollisionSurface := slot } := by
  unfold emitCollision
  split
  · exact ⟨_, rfl⟩
  · exact ⟨_, rfl⟩

/-- Case analysis on `wallPhase`: either the wall test does not fire and the
state passes through unchanged, or it fires at `ballDist = 0` (NaN), or it
fires and the ball is moved to the corrected position (with velocity,
debounce slot and event list depending on `vn` and the surface lookup). -/
lemma wallPhase_cases (p : Phys) :
    (¬ p.drumRadius < ballDist p + p.ball.radius ∧ wallPhase p = some (p, []))
    ∨ (p.drumRadius < ballDist p + p.ball.radius ∧ ballDist p = 0 ∧ wallPhase p = none)
    ∨ (p.drumRadius < ballDist p + p.ball.radius ∧ ballDist p ≠ 0 ∧
        ∃ q evs, wallPhase p = some (q, evs) ∧ q.ball.x = wallCorrectedX p
          ∧ q.ball.y = wallCorrectedY p ∧ q.ball.radius = p.ball.radius
          ∧ q.drumRadius = p.drumRadius) := by
  by_cases hfire : p.drumRadius < ballDist p + p.ball.radius
  · by_cases hd : ballDist p = 0
    · refine Or.inr (Or.inl ⟨hfire, hd, ?_⟩)
      rw [wallPhase, if_pos hfire, if_pos hd]
    · refine Or.inr (Or.inr ⟨hfire, hd, ?_⟩)
      rw [wallPhase, if_pos hfire, if_neg hd]
      by_cases hvn : wallVn p < 0
      · rw [if_pos hvn]
        obtain ⟨slot, hs⟩ := emitCollision_shape (wallReflected p) SurfaceType.drum
          (segmentIndexAt (wallCorrectedX p) (wallCorrectedY p) p.vaneCount p.segmentIndexOffset)
          |wallVn p|
        refine ⟨(emitCollision (wallReflected p) SurfaceType.drum
            (segmentIndexAt (wallCorrectedX p) (wallCorrectedY p) p.vaneCount p.segmentIndexOffset)
            |wallVn p|).1,
          (emitCollision (wallReflected p) SurfaceType.drum
            (segmentIndexAt (wallCorrectedX p) (wallCorrectedY p) p.vaneCount p.segmentIndexOffset)
            |wallVn p|).2, rfl, ?_, ?_, ?_, ?_⟩ <;> (rw [hs]; rfl)
      · rw [if_neg hvn]
        exact ⟨_, _, rfl, rfl, rfl, rfl, rfl⟩
  · exact Or.inl ⟨hfire, by rw [wallPhase, if_neg hfire]⟩

/-- C10: whenever the wall test fires with `0 < ballDist` and
`ballRadius < drumRadius`, the positional correction scales the ball position
by the positive factor `(drumRadius - ballRadius) / ballDist`; afterwards the
ball centre sits at distance exactly `drumRadius - ballRadius` from the axis
and its angular coordinate `atan2(y, x)` is unchanged, and `wallPhase` indeed
moves the ball to exactly this corrected position. -/
theorem wall_correction_scaling (p : Phys)
    (hfire : p.drumRadius < ballDist p + p.ball.radius)
    (hd : 0 < ballDist p) (hr : p.ball.radius < p.drumRadius) :
    0 < (p.drumRadius - p.ball.radius) / ballDist p
    ∧ wallCorrectedX p = p.ball.x * ((p.drumRadius - p.ball.radius) / ballDist p)
    ∧ wallCorrectedY p = p.ball.y * ((p.drumRadius - p.ball.radius) / ballDist p)
    ∧ norm2 (wallCorrectedX p) (wallCorrectedY p) = p.drumRadius - p.ball.radius
    ∧ atan2 (wallCorrectedY p) (wallCorrectedX p) = atan2 p.ball.y p.ball.x
    ∧ (wallPhase p).map (fun pe => (pe.1.ball.x, pe.1.ball.y))
        = some (wallCorrectedX p, wallCorrectedY p) := by
  have hdne : ballDist p ≠ 0 := ne_of_gt hd
  have hk : 0 < (p.drumRadius - p.ball.radius) / ballDist p := div_pos (by linarith) hd
  refine ⟨hk, wallCorrectedX_eq p hdne, wallCorrectedY_eq p hdne, ?_, ?_, ?_⟩
  · rw [norm2_corrected p hdne, abs_of_pos (by linarith)]
  · rw [wallCorrectedX_eq p hdne, wallCorrectedY_eq p hdne, atan2_scale _ _ _ hk]
  · rcases wallPhase_cases p with ⟨hnf, _⟩ | ⟨_, hd0, _⟩ | ⟨_, _, q, evs, heq, hx, hy, _, _⟩
    · exact absurd hfire hnf
    · exact absurd hd0 hdne
    · rw [heq]
      simp [hx, hy]

/-- C1 (amended): the wall-resolution half of `handleCollisions` does
establish containment: whenever `0 < ballDist` and `radius ≤ drumRadius`,
`wallPhase` succeeds and its output satisfies
`ballDist + radius ≤ drumRadius`. -/
theorem wall_phase_containment (p : Phys) (hd : 0 < ballDist p)
    (hrR : p.ball.radius ≤ p.drumRadius) :
    (wallPhase p).isSome = true
    ∧ (wallPhase p).elim True
        (fun pe => ballDist pe.1 + pe.1.ball.radius ≤ pe.1.drumRadius) := by
  rcases wallPhase_cases p with ⟨hnf, heq⟩ | ⟨_, hd0, _⟩ |
    ⟨hfire, hdne, q, evs, heq, hx, hy, hrad, hR⟩
  · rw [heq]
    exact ⟨rfl, by simpa using le_of_not_lt hnf⟩
  · exact absurd hd0 (ne_of_gt hd)
  · rw [heq]
    refine ⟨rfl, ?_⟩
    show ballDist q + q.ball.radius ≤ q.drumRadius
    have hq : ballDist q = |p.drumRadius - p.ball.radius| := by
      rw [show ballDist q = norm2 q.ball.x q.ball.y from rfl, hx, hy]
      exact norm2_corrected p hdne
    rw [hq, hrad, hR, abs_of_nonneg (by linarith)]
    linarith

/-- C2: for a wall impact the reported drum-segment index (computed on the
corrected position) equals the spec formula on the pre-correction angular
position, and lies in `[0, vaneCount)`. -/
theorem wall_segment_classification (p : Phys) (hn : 1 ≤ p.vaneCount)
    (hd : 0 < ballDist p) (hr : p.ball.radius < p.drumRadius) :
    segmentIndexAt (wallCorrectedX p) (wallCorrectedY p) p.vaneCount p.segmentIndexOffset
      = specWallSegment p.ball.x p.ball.y p.vaneCount p.segmentIndexOffset
    ∧ 0 ≤ segmentIndexAt (wallCorrectedX p) (wallCorrectedY p) p.vaneCount p.segmentIndexOffset
    ∧ segmentIndexAt (wallCorrectedX p) (wallCorrectedY p) p.vaneCount p.segmentIndexOffset
      < p.vaneCount := by
  have hdne : ballDist p ≠ 0 := ne_of_gt hd
  have hk : 0 < (p.drumRadius - p.ball.radius) / ballDist p := div_pos (by linarith) hd
  have hatan : atan2 (wallCorrectedY p) (wallCorrectedX p) = atan2 p.ball.y p.ball.x := by
    rw [wallCorrectedX_eq p hdne, wallCorrectedY_eq p hdne, atan2_scale _ _ _ hk]
  obtain ⟨h1, h2, h3⟩ := segmentIndexAt_eq_spec (wallCorrectedX p) (wallCorrectedY p)
    p.vaneCount p.segmentIndexOffset hn
  refine ⟨?_, h2, h3⟩
  rw [h1]
  unfold specWallSegment
  rw [hatan]

/-! ### Concrete witness states -/

/-- A concrete simulation state builder for witnesses and counterexamples:
drum radius `R`, vane height fraction `h`, `n` vanes, ball at `(bx, by)` with
velocity `(vx, vy)` and radius `r`. -/
def mkState (R h : ℝ) (n : ℤ) (bx bY vx vy r : ℝ) : Phys :=
  { rpm := 0, drumRadius := R, vaneCount := n, vaneHeight := h,
    ball := { x := bx, y := bY, vx := vx, vy := vy, radius := r, mass := 1,
              restitution := 3/4, dragCoeff := 1/2 },
    gravity := 981/100, airDensity := 1225/1000,
    lintTrapEnabled := false, lintTrapThreshold := 3/20,
    useQuadraticDrag := false, drumAngle := 0, drumAngularVelocity := 0,
    segmentIndexOffset := 0, enableCoriolis := true, enableCentrifugal := true,
    enableAirDrag := true, coriolisSignFlip := 1,
    surfaces := updateSurfaces 4, lastCollisionSurface := none }

/-- Ball at `(3/5, 4/5)` (distance 1), radius `1/10`, in a unit drum:
a genuine wall impact moving into the wall. -/
def wallHitState : Phys := mkState 1 (1/2) 4 (3/5) (4/5) (3/5) (4/5) (1/10)

lemma wallHitState_dist : ballDist wallHitState = 1 := by
  show norm2 (3/5) (4/5) = 1
  exact norm2_eq_of _ _ _ (by norm_num) (by norm_num)

/-- C10 witness: the wall-correction theorem applied to `wallHitState`. -/
theorem wall_correction_scaling_witness :
    (wallHitState.drumRadius < ballDist wallHitState + wallHitState.ball.radius
      ∧ 0 < ballDist wallHitState
      ∧ wallHitState.ball.radius < wallHitState.drumRadius)
    ∧ (0 < (wallHitState.drumRadius - wallHitState.ball.radius) / ballDist wallHitState
      ∧ wallCorrectedX wallHitState = wallHitState.ball.x
          * ((wallHitState.drumRadius - wallHitState.ball.radius) / ballDist wallHitState)
      ∧ wallCorrectedY wallHitState = wallHitState.ball.y
          * ((wallHitState.drumRadius - wallHitState.ball.radius) / ballDist wallHitState)
      ∧ norm2 (wallCorrectedX wallHitState) (wallCorrectedY wallHitState)
          = wallHitState.drumRadius - wallHitState.ball.radius
      ∧ atan2 (wallCorrectedY wallHitState) (wallCorrectedX wallHitState)
          = atan2 wallHitState.ball.y wallHitState.ball.x
      ∧ (wallPhase wallHitState).map (fun pe => (pe.1.ball.x, pe.1.ball.y))
          = some (wallCorrectedX wallHitState, wallCorrectedY wallHitState)) := by
  have hfire : wallHitState.drumRadius < ballDist wallHitState + wallHitState.ball.radius := by
    rw [wallHitState_dist]
    show (1 : ℝ) < 1 + 1/10
    norm_num
  have hd : 0 < ballDist wallHitState := by rw [wallHitState_dist]; norm_num
  have hr : wallHitState.ball.radius < wallHitState.drumRadius := by
    show (1 : ℝ)/10 < 1
    norm_num
  exact ⟨⟨hfire, hd, hr⟩, wall_correction_scaling wallHitState hfire hd hr⟩

/-- C1 (amended) witness: containment after the wall phase at `wallHitState`. -/
theorem wall_phase_containment_witness :
    (0 < ballDist wallHitState
      ∧ wallHitState.ball.radius ≤ wallHitState.drumRadius)
    ∧ ((wallPhase wallHitState).isSome = true
      ∧ (wallPhase wallHitState).elim True
          (fun pe => ballDist pe.1 + pe.1.ball.radius ≤ pe.1.drumRadius)) := by
  have hd : 0 < ballDist wallHitState := by rw [wallHitState_dist]; norm_num
  have hr : wallHitState.ball.radius ≤ wallHitState.drumRadius := by
    show (1 : ℝ)/10 ≤ 1
    norm_num
  exact ⟨⟨hd, hr⟩, wall_phase_containment wallHitState hd hr⟩

/-- C2 witness: the segment-classification theorem applied to `wallHitState`. -/
theorem wall_segment_classification_witness :
    (1 ≤ wallHitState.vaneCount
      ∧ 0 < ballDist wallHitState
      ∧ wallHitState.ball.radius < wallHitState.drumRadius)
    ∧ (segmentIndexAt (wallCorrectedX wallHitState) (wallCorrectedY wallHitState)
          wallHitState.vaneCount wallHitState.segmentIndexOffset
        = specWallSegment wallHitState.ball.x wallHitState.ball.y
            wallHitState.vaneCount wallHitState.segmentIndexOffset
      ∧ 0 ≤ segmentIndexAt (wallCorrectedX wallHitState) (wallCorrectedY wallHitState)
          wallHitState.vaneCount wallHitState.segmentIndexOffset
      ∧ segmentIndexAt (wallCorrectedX wallHitState) (wallCorrectedY wallHitState)
          wallHitState.vaneCount wallHitState.segmentIndexOffset < wallHitState.vaneCount) := by
  have hn : 1 ≤ wallHitState.vaneCount := by show (1:ℤ) ≤ 4; norm_num
  have hd : 0 < ballDist wallHitState := by rw [wallHitState_dist]; norm_num
  have hr : wallHitState.ball.radius < wallHitState.drumRadius := by
    show (1 : ℝ)/10 < 1
    norm_num
  exact ⟨⟨hn, hd, hr⟩, wall_segment_classification wallHitState hn hd hr⟩

/-! ### Impact gating and reflection (C6) -/

lemma wall_normal_unit (p : Phys) (hd : ballDist p ≠ 0) :
    wallNx p * wallNx p + wallNy p * wallNy p = 1 := by
  have hdd : ballDist p * ballDist p = p.ball.x * p.ball.x + p.ball.y * p.ball.y :=
    norm2_mul_self _ _
  rw [wallNx, wallNy]
  field_simp
  linarith

lemma vane_normal_unit (p : Phys) (i : ℕ) (hd : vaneDist p i ≠ 0) :
    vaneNx p i * vaneNx p i + vaneNy p i * vaneNy p i = 1 := by
  have hdd : vaneDist p i * vaneDist p i
      = vaneDistX p i * vaneDistX p i + vaneDistY p i * vaneDistY p i :=
    norm2_mul_self _ _
  rw [vaneNx, vaneNy]
  field_simp
  linarith

/-- Reflecting `v -= (1+e)·(v·n)·n` across a unit normal `n` sends the normal
velocity component to `-e` times its old value and keeps the tangential
component (along `(-ny, nx)`) unchanged. -/
lemma reflect_normal_tangent (vx vy nx ny e : ℝ) (hunit : nx * nx + ny * ny = 1) :
    (vx - (1 + e) * (vx * nx + vy * ny) * nx) * nx
      + (vy - (1 + e) * (vx * nx + vy * ny) * ny) * ny = -(e * (vx * nx + vy * ny))
    ∧ (vx - (1 + e) * (vx * nx + vy * ny) * nx) * (-ny)
      + (vy - (1 + e) * (vx * nx + vy * ny) * ny) * nx = vx * (-ny) + vy * nx := by
  constructor
  · linear_combination (-((1 + e) * (vx * nx + vy * ny))) * hunit
  · ring

/-- On an active wall impact the resulting velocity is the reflected one. -/
lemma wallPhase_hit (p : Phys) (hfire : p.drumRadius < ballDist p + p.ball.radius)
    (hd : ballDist p ≠ 0) (hvn : wallVn p < 0) :
    ∃ q evs, wallPhase p = some (q, evs)
      ∧ q.ball.vx = (wallReflected p).ball.vx ∧ q.ball.vy = (wallReflected p).ball.vy := by
  rw [wallPhase, if_pos hfire, if_neg hd, if_pos hvn]
  obtain ⟨slot, hs⟩ := emitCollision_shape (wallReflected p) SurfaceType.drum
    (segmentIndexAt (wallCorrectedX p) (wallCorrectedY p) p.vaneCount p.segmentIndexOffset)
    |wallVn p|
  refine ⟨(emitCollision (wallReflected p) SurfaceType.drum
      (segmentIndexAt (wallCorrectedX p) (wallCorrectedY p) p.vaneCount p.segmentIndexOffset)
      |wallVn p|).1,
    (emitCollision (wallReflected p) SurfaceType.drum
      (segmentIndexAt (wallCorrectedX p) (wallCorrectedY p) p.vaneCount p.segmentIndexOffset)
      |wallVn p|).2, rfl, ?_, ?_⟩ <;> rw [hs]

/-- On a separating wall contact (`vn ≥ 0`) only the position is corrected:
velocity is untouched and no event is emitted. -/
lemma wallPhase_separating (p : Phys) (hfire : p.drumRadius < ballDist p + p.ball.radius)
    (hd : ballDist p ≠ 0) (hvn : ¬ wallVn p < 0) :
    wallPhase p = some ({ p with ball := { p.ball with
      x := wallCorrectedX p, y := wallCorrectedY p } }, []) := by
  rw [wallPhase, if_pos hfire, if_neg hd, if_neg hvn]

/-- On an active vane impact the resulting velocity is the reflected one. -/
lemma vaneStep_hit (p : Phys) (i : ℕ) (hlen : vaneLength p i ≠ 0)
    (ht : 0 ≤ vaneT p i ∧ vaneT p i ≤ 1) (hlt : vaneDist p i < p.ball.radius)
    (h0 : vaneDist p i ≠ 0) (hvn : vaneVn p i < 0) :
    ∃ q evs, vaneStep p i = some (q, evs)
      ∧ q.ball.vx = (vaneReflected p i).ball.vx ∧ q.ball.vy = (vaneReflected p i).ball.vy := by
  rw [vaneStep, if_neg hlen, if_pos ht, if_pos hlt, if_neg h0, if_pos hvn]
  obtain ⟨slot, hs⟩ := emitCollision_shape (vaneReflected p i) (vaneSide p i) (i : ℤ) |vaneVn p i|
  refine ⟨(emitCollision (vaneReflected p i) (vaneSide p i) (i : ℤ) |vaneVn p i|).1,
    (emitCollision (vaneReflected p i) (vaneSide p i) (i : ℤ) |vaneVn p i|).2,
    rfl, ?_, ?_⟩ <;> rw [hs]

/-- On a separating vane contact only the position is corrected. -/
lemma vaneStep_separating (p : Phys) (i : ℕ) (hlen : vaneLength p i ≠ 0)
    (ht : 0 ≤ vaneT p i ∧ vaneT p i ≤ 1) (hlt : vaneDist p i < p.ball.radius)
    (h0 : vaneDist p i ≠ 0) (hvn : ¬ vaneVn p i < 0) :
    vaneStep p i = some ({ p with ball := { p.ball with
      x := vaneCorrectedX p i, y := vaneCorrectedY p i } }, []) := by
  rw [vaneStep, if_neg hlen, if_pos ht, if_pos hlt, if_neg h0, if_neg hvn]

/-- C6: a wall or vane contact is an active impact only when `vn < 0`; on an
active impact the reflected velocity has outgoing normal component
`-restitution·vn` (so outgoing normal speed is `restitution` times the
incoming normal speed, exactly `0` when restitution is `0`) and an unchanged
tangential component; when `vn ≥ 0` the velocity is untouched and no event is
emitted.  States `p₁`/`p₃` exhibit active wall/vane impacts and `p₂`/`p₄`
separating ones. -/
theorem impact_reflection_restitution (p₁ p₂ p₃ p₄ : Phys) (i₃ i₄ : ℕ)
    (h₁fire : p₁.drumRadius < ballDist p₁ + p₁.ball.radius)
    (h₁d : 0 < ballDist p₁) (h₁vn : wallVn p₁ < 0)
    (h₂fire : p₂.drumRadius < ballDist p₂ + p₂.ball.radius)
    (h₂d : 0 < ballDist p₂) (h₂vn : ¬ wallVn p₂ < 0)
    (h₃len : vaneLength p₃ i₃ ≠ 0) (h₃t : 0 ≤ vaneT p₃ i₃ ∧ vaneT p₃ i₃ ≤ 1)
    (h₃lt : vaneDist p₃ i₃ < p₃.ball.radius) (h₃0 : 0 < vaneDist p₃ i₃)
    (h₃vn : vaneVn p₃ i₃ < 0)
    (h₄len : vaneLength p₄ i₄ ≠ 0) (h₄t : 0 ≤ vaneT p₄ i₄ ∧ vaneT p₄ i₄ ≤ 1)
    (h₄lt : vaneDist p₄ i₄ < p₄.ball.radius) (h₄0 : 0 < vaneDist p₄ i₄)
    (h₄vn : ¬ vaneVn p₄ i₄ < 0) :
    (wallPhase p₁).map (fun pe =>
        (pe.1.ball.vx * wallNx p₁ + pe.1.ball.vy * wallNy p₁,
         pe.1.ball.vx * (-wallNy p₁) + pe.1.ball.vy * wallNx p₁))
      = some (-(p₁.ball.restitution * wallVn p₁),
          p₁.ball.vx * (-wallNy p₁) + p₁.ball.vy * wallNx p₁)
    ∧ wallPhase p₂ = some ({ p₂ with ball := { p₂.ball with
        x := wallCorrectedX p₂, y := wallCorrectedY p₂ } }, [])
    ∧ (vaneStep p₃ i₃).map (fun pe =>
        (pe.1.ball.vx * vaneNx p₃ i₃ + pe.1.ball.vy * vaneNy p₃ i₃,
         pe.1.ball.vx * (-vaneNy p₃ i₃) + pe.1.ball.vy * vaneNx p₃ i₃))
      = some (-(p₃.ball.restitution * vaneVn p₃ i₃),
          p₃.ball.vx * (-vaneNy p₃ i₃) + p₃.ball.vy * vaneNx p₃ i₃)
    ∧ vaneStep p₄ i₄ = some ({ p₄ with ball := { p₄.ball with
        x := vaneCorrectedX p₄ i₄, y := vaneCorrectedY p₄ i₄ } }, []) := by
  refine ⟨?_, wallPhase_separating p₂ h₂fire (ne_of_gt h₂d) h₂vn, ?_,
    vaneStep_separating p₄ i₄ h₄len h₄t h₄lt (ne_of_gt h₄0) h₄vn⟩
  · obtain ⟨q, evs, heq, hvx, hvy⟩ := wallPhase_hit p₁ h₁fire (ne_of_gt h₁d) h₁vn
    rw [heq]
    have hrt := reflect_normal_tangent p₁.ball.vx p₁.ball.vy (wallNx p₁) (wallNy p₁)
      p₁.ball.restitution (wall_normal_unit p₁ (ne_of_gt h₁d))
    simp only [Option.map_some', Option.some.injEq, Prod.mk.injEq]
    constructor
    · rw [hvx, hvy]
      show (p₁.ball.vx - (1 + p₁.ball.restitution) * wallVn p₁ * wallNx p₁) * wallNx p₁
        + (p₁.ball.vy - (1 + p₁.ball.restitution) * wallVn p₁ * wallNy p₁) * wallNy p₁
        = -(p₁.ball.restitution * wallVn p₁)
      rw [wallVn]
      exact hrt.1
    · rw [hvx, hvy]
      show (p₁.ball.vx - (1 + p₁.ball.restitution) * wallVn p₁ * wallNx p₁) * (-wallNy p₁)
        + (p₁.ball.vy - (1 + p₁.ball.restitution) * wallVn p₁ * wallNy p₁) * wallNx p₁
        = p₁.ball.vx * (-wallNy p₁) + p₁.ball.vy * wallNx p₁
      rw [wallVn]
      exact hrt.2
  · obtain ⟨q, evs, heq, hvx, hvy⟩ := vaneStep_hit p₃ i₃ h₃len h₃t h₃lt (ne_of_gt h₃0) h₃vn
    rw [heq]
    have hrt := reflect_normal_tangent p₃.ball.vx p₃.ball.vy (vaneNx p₃ i₃) (vaneNy p₃ i₃)
      p₃.ball.restitution (vane_normal_unit p₃ i₃ (ne_of_gt h₃0))
    simp only [Option.map_some', Option.some.injEq, Prod.mk.injEq]
    constructor
    · rw [hvx, hvy]
      show (p₃.ball.vx - (1 + p₃.ball.restitution) * vaneVn p₃ i₃ * vaneNx p₃ i₃) * vaneNx p₃ i₃
        + (p₃.ball.vy - (1 + p₃.ball.restitution) * vaneVn p₃ i₃ * vaneNy p₃ i₃) * vaneNy p₃ i₃
        = -(p₃.ball.restitution * vaneVn p₃ i₃)
      rw [vaneVn]
      exact hrt.1
    · rw [hvx, hvy]
      show (p₃.ball.vx - (1 + p₃.ball.restitution) * vaneVn p₃ i₃ * vaneNx p₃ i₃) * (-vaneNy p₃ i₃)
        + (p₃.ball.vy - (1 + p₃.ball.restitution) * vaneVn p₃ i₃ * vaneNy p₃ i₃) * vaneNx p₃ i₃
        = p₃.ball.vx * (-vaneNy p₃ i₃) + p₃.ball.vy * vaneNx p₃ i₃
      rw [vaneVn]
      exact hrt.2

/-! ### Evaluating the geometry at concrete states -/

lemma vaneAngle_zero (p : Phys) : vaneAngle p 0 = 0 := by
  simp [vaneAngle]

lemma vane0_geom (p : Phys) :
    vaneX1 p 0 = vaneInnerRadius p ∧ vaneY1 p 0 = 0
    ∧ vaneVdx p 0 = p.drumRadius - vaneInnerRadius p ∧ vaneVdy p 0 = 0 := by
  refine ⟨?_, ?_, ?_, ?_⟩ <;>
    simp [vaneX1, vaneY1, vaneX2, vaneY2, vaneVdx, vaneVdy, vaneAngle_zero]

lemma wallEval (vx vy : ℝ) :
    ballDist (mkState 1 (1/2) 4 (3/5) (4/5) vx vy (1/10)) = 1
    ∧ wallNx (mkState 1 (1/2) 4 (3/5) (4/5) vx vy (1/10)) = -(3/5)
    ∧ wallNy (mkState 1 (1/2) 4 (3/5) (4/5) vx vy (1/10)) = -(4/5)
    ∧ wallVn (mkState 1 (1/2) 4 (3/5) (4/5) vx vy (1/10)) = vx * -(3/5) + vy * -(4/5) := by
  have hd : ballDist (mkState 1 (1/2) 4 (3/5) (4/5) vx vy (1/10)) = 1 := by
    show norm2 (3/5) (4/5) = 1
    exact norm2_eq_of _ _ _ (by norm_num) (by norm_num)
  have hnx : wallNx (mkState 1 (1/2) 4 (3/5) (4/5) vx vy (1/10)) = -(3/5) := by
    rw [wallNx, hd]
    show -(3/5 : ℝ) / 1 = -(3/5)
    norm_num
  have hny : wallNy (mkState 1 (1/2) 4 (3/5) (4/5) vx vy (1/10)) = -(4/5) := by
    rw [wallNy, hd]
    show -(4/5 : ℝ) / 1 = -(4/5)
    norm_num
  refine ⟨hd, hnx, hny, ?_⟩
  rw [wallVn, hnx, hny]
  rfl

lemma vaneEval0 (vx vy : ℝ) :
    vaneLength (mkState 1 (1/2) 4 (7/10) (1/20) vx vy (1/10)) 0 = 1/2
    ∧ vaneT (mkState 1 (1/2) 4 (7/10) (1/20) vx vy (1/10)) 0 = 2/5
    ∧ vaneDist (mkState 1 (1/2) 4 (7/10) (1/20) vx vy (1/10)) 0 = 1/20
    ∧ vaneNx (mkState 1 (1/2) 4 (7/10) (1/20) vx vy (1/10)) 0 = 0
    ∧ vaneNy (mkState 1 (1/2) 4 (7/10) (1/20) vx vy (1/10)) 0 = 1
    ∧ vaneVn (mkState 1 (1/2) 4 (7/10) (1/20) vx vy (1/10)) 0 = vy := by
  have h0 := vane0_geom (mkState 1 (1/2) 4 (7/10) (1/20) vx vy (1/10))
  have hin : vaneInnerRadius (mkState 1 (1/2) 4 (7/10) (1/20) vx vy (1/10)) = 1/2 := by
    show (1 : ℝ) * (1 - 1/2) = 1/2
    norm_num
  have hlen : vaneLength (mkState 1 (1/2) 4 (7/10) (1/20) vx vy (1/10)) 0 = 1/2 := by
    rw [vaneLength, h0.2.2.1, h0.2.2.2, hin]
    show norm2 ((1 : ℝ) - 1/2) 0 = 1/2
    exact norm2_eq_of _ _ _ (by norm_num) (by norm_num)
  have ht : vaneT (mkState 1 (1/2) 4 (7/10) (1/20) vx vy (1/10)) 0 = 2/5 := by
    rw [vaneT, vaneDx, vaneDy, h0.1, h0.2.1, h0.2.2.1, h0.2.2.2, hlen, hin]
    show ((7/10 - (1:ℝ)/2) * (1 - 1/2) + (1/20 - 0) * 0) / (1/2 * (1/2)) = 2/5
    norm_num
  have hcx : vaneClosestX (mkState 1 (1/2) 4 (7/10) (1/20) vx vy (1/10)) 0 = 7/10 := by
    rw [vaneClosestX, h0.1, ht, h0.2.2.1, hin]
    show (1 : ℝ)/2 + 2/5 * (1 - 1/2) = 7/10
    norm_num
  have hcy : vaneClosestY (mkState 1 (1/2) 4 (7/10) (1/20) vx vy (1/10)) 0 = 0 := by
    rw [vaneClosestY, h0.2.1, ht, h0.2.2.2]
    norm_num
  have hdx : vaneDistX (mkState 1 (1/2) 4 (7/10) (1/20) vx vy (1/10)) 0 = 0 := by
    rw [vaneDistX, hcx]
    show (7 : ℝ)/10 - 7/10 = 0
    norm_num
  have hdy : vaneDistY (mkState 1 (1/2) 4 (7/10) (1/20) vx vy (1/10)) 0 = 1/20 := by
    rw [vaneDistY, hcy]
    show (1 : ℝ)/20 - 0 = 1/20
    norm_num
  have hdist : vaneDist (mkState 1 (1/2) 4 (7/10) (1/20) vx vy (1/10)) 0 = 1/20 := by
    rw [vaneDist, hdx, hdy]
    exact norm2_eq_of _ _ _ (by norm_num) (by norm_num)
  have hnx : vaneNx (mkState 1 (1/2) 4 (7/10) (1/20) vx vy (1/10)) 0 = 0 := by
    rw [vaneNx, hdx, hdist]
    norm_num
  have hny : vaneNy (mkState 1 (1/2) 4 (7/10) (1/20) vx vy (1/10)) 0 = 1 := by
    rw [vaneNy, hdy, hdist]
    norm_num
  have hvn : vaneVn (mkState 1 (1/2) 4 (7/10) (1/20) vx vy (1/10)) 0 = vy := by
    rw [vaneVn, hnx, hny]
    show vx * 0 + vy * 1 = vy
    ring
  exact ⟨hlen, ht, hdist, hnx, hny, hvn⟩

/-- C6 witness: the reflection theorem at four concrete impact states. -/
theorem impact_reflection_restitution_witness :
    ((mkState 1 (1/2) 4 (3/5) (4/5) (3/5) (4/5) (1/10)).drumRadius
        < ballDist (mkState 1 (1/2) 4 (3/5) (4/5) (3/5) (4/5) (1/10))
          + (mkState 1 (1/2) 4 (3/5) (4/5) (3/5) (4/5) (1/10)).ball.radius
      ∧ wallVn (mkState 1 (1/2) 4 (3/5) (4/5) (3/5) (4/5) (1/10)) < 0
      ∧ ¬ wallVn (mkState 1 (1/2) 4 (3/5) (4/5) (-(3/5)) (-(4/5)) (1/10)) < 0
      ∧ vaneVn (mkState 1 (1/2) 4 (7/10) (1/20) 0 (-1) (1/10)) 0 < 0
      ∧ ¬ vaneVn (mkState 1 (1/2) 4 (7/10) (1/20) 0 1 (1/10)) 0 < 0)
    ∧ (wallPhase (mkState 1 (1/2) 4 (3/5) (4/5) (3/5) (4/5) (1/10))).map (fun pe =>
        (pe.1.ball.vx * wallNx (mkState 1 (1/2) 4 (3/5) (4/5) (3/5) (4/5) (1/10))
           + pe.1.ball.vy * wallNy (mkState 1 (1/2) 4 (3/5) (4/5) (3/5) (4/5) (1/10)),
         pe.1.ball.vx * (-wallNy (mkState 1 (1/2) 4 (3/5) (4/5) (3/5) (4/5) (1/10)))
           + pe.1.ball.vy * wallNx (mkState 1 (1/2) 4 (3/5) (4/5) (3/5) (4/5) (1/10))))
      = some (-((mkState 1 (1/2) 4 (3/5) (4/5) (3/5) (4/5) (1/10)).ball.restitution
            * wallVn (mkState 1 (1/2) 4 (3/5) (4/5) (3/5) (4/5) (1/10))),
          (mkState 1 (1/2) 4 (3/5) (4/5) (3/5) (4/5) (1/10)).ball.vx
              * (-wallNy (mkState 1 (1/2) 4 (3/5) (4/5) (3/5) (4/5) (1/10)))
            + (mkState 1 (1/2) 4 (3/5) (4/5) (3/5) (4/5) (1/10)).ball.vy
              * wallNx (mkState 1 (1/2) 4 (3/5) (4/5) (3/5) (4/5) (1/10)))
    ∧ vaneStep (mkState 1 (1/2) 4 (7/10) (1/20) 0 1 (1/10)) 0
      = some ({ mkState 1 (1/2) 4 (7/10) (1/20) 0 1 (1/10) with
          ball := { (mkState 1 (1/2) 4 (7/10) (1/20) 0 1 (1/10)).ball with
            x := vaneCorrectedX (mkState 1 (1/2) 4 (7/10) (1/20) 0 1 (1/10)) 0,
            y := vaneCorrectedY (mkState 1 (1/2) 4 (7/10) (1/20) 0 1 (1/10)) 0 } }, []) := by
  have hw := wallEval (3/5) (4/5)
  have hw2 := wallEval (-(3/5)) (-(4/5))
  have hv3 := vaneEval0 0 (-1)
  have hv4 := vaneEval0 0 1
  have h₁fire : (mkState 1 (1/2) 4 (3/5) (4/5) (3/5) (4/5) (1/10)).drumRadius
      < ballDist (mkState 1 (1/2) 4 (3/5) (4/5) (3/5) (4/5) (1/10))
        + (mkState 1 (1/2) 4 (3/5) (4/5) (3/5) (4/5) (1/10)).ball.radius := by
    rw [hw.1]
    show (1 : ℝ) < 1 + 1/10
    norm_num
  have h₂fire : (mkState 1 (1/2) 4 (3/5) (4/5) (-(3/5)) (-(4/5)) (1/10)).drumRadius
      < ballDist (mkState 1 (1/2) 4 (3/5) (4/5) (-(3/5)) (-(4/5)) (1/10))
        + (mkState 1 (1/2) 4 (3/5) (4/5) (-(3/5)) (-(4/5)) (1/10)).ball.radius := by
    rw [hw2.1]
    show (1 : ℝ) < 1 + 1/10
    norm_num
  have h₁d : 0 < ballDist (mkState 1 (1/2) 4 (3/5) (4/5) (3/5) (4/5) (1/10)) := by
    rw [hw.1]; norm_num
  have h₂d : 0 < ballDist (mkState 1 (1/2) 4 (3/5) (4/5) (-(3/5)) (-(4/5)) (1/10)) := by
    rw [hw2.1]; norm_num
  have h₁vn : wallVn (mkState 1 (1/2) 4 (3/5) (4/5) (3/5) (4/5) (1/10)) < 0 := by
    rw [hw.2.2.2]; norm_num
  have h₂vn : ¬ wallVn (mkState 1 (1/2) 4 (3/5) (4/5) (-(3/5)) (-(4/5)) (1/10)) < 0 := by
    rw [hw2.2.2.2]; norm_num
  have h₃vn : vaneVn (mkState 1 (1/2) 4 (7/10) (1/20) 0 (-1) (1/10)) 0 < 0 := by
    rw [hv3.2.2.2.2.2]; norm_num
  have h₄vn : ¬ vaneVn (mkState 1 (1/2) 4 (7/10) (1/20) 0 1 (1/10)) 0 < 0 := by
    rw [hv4.2.2.2.2.2]; norm_num
  have h₃len : vaneLength (mkState 1 (1/2) 4 (7/10) (1/20) 0 (-1) (1/10)) 0 ≠ 0 := by
    rw [hv3.1]; norm_num
  have h₄len : vaneLength (mkState 1 (1/2) 4 (7/10) (1/20) 0 1 (1/10)) 0 ≠ 0 := by
    rw [hv4.1]; norm_num
  have h₃t : 0 ≤ vaneT (mkState 1 (1/2) 4 (7/10) (1/20) 0 (-1) (1/10)) 0
      ∧ vaneT (mkState 1 (1/2) 4 (7/10) (1/20) 0 (-1) (1/10)) 0 ≤ 1 := by
    rw [hv3.2.1]; norm_num
  have h₄t : 0 ≤ vaneT (mkState 1 (1/2) 4 (7/10) (1/20) 0 1 (1/10)) 0
      ∧ vaneT (mkState 1 (1/2) 4 (7/10) (1/20) 0 1 (1/10)) 0 ≤ 1 := by
    rw [hv4.2.1]; norm_num
  have h₃lt : vaneDist (mkState 1 (1/2) 4 (7/10) (1/20) 0 (-1) (1/10)) 0
      < (mkState 1 (1/2) 4 (7/10) (1/20) 0 (-1) (1/10)).ball.radius := by
    rw [hv3.2.2.1]
    show (1 : ℝ)/20 < 1/10
    norm_num
  have h₄lt : vaneDist (mkState 1 (1/2) 4 (7/10) (1/20) 0 1 (1/10)) 0
      < (mkState 1 (1/2) 4 (7/10) (1/20) 0 1 (1/10)).ball.radius := by
    rw [hv4.2.2.1]
    show (1 : ℝ)/20 < 1/10
    norm_num
  have h₃0 : 0 < vaneDist (mkState 1 (1/2) 4 (7/10) (1/20) 0 (-1) (1/10)) 0 := by
    rw [hv3.2.2.1]; norm_num
  have h₄0 : 0 < vaneDist (mkState 1 (1/2) 4 (7/10) (1/20) 0 1 (1/10)) 0 := by
    rw [hv4.2.2.1]; norm_num
  have hmain := impact_reflection_restitution
    (mkState 1 (1/2) 4 (3/5) (4/5) (3/5) (4/5) (1/10))
    (mkState 1 (1/2) 4 (3/5) (4/5) (-(3/5)) (-(4/5)) (1/10))
    (mkState 1 (1/2) 4 (7/10) (1/20) 0 (-1) (1/10))
    (mkState 1 (1/2) 4 (7/10) (1/20) 0 1 (1/10)) 0 0
    h₁fire h₁d h₁vn h₂fire h₂d h₂vn
    h₃len h₃t h₃lt h₃0 h₃vn h₄len h₄t h₄lt h₄0 h₄vn
  exact ⟨⟨h₁fire, h₁vn, h₂vn, h₃vn, h₄vn⟩, hmain.1, hmain.2.2.2⟩

/-! ### Configuration updates (C4) -/

/-- C4 counterexample: `setParameters` neither rejects nor clamps: called
with drum size `-50` cm and vane count `0` on the valid initial state it
stores `drumRadius = -1/2` and `vaneCount = 0` verbatim, discarding the prior
valid radius `4/5`; the stored radius is neither the prior value nor
positive, so no reject-or-clamp policy is applied. -/
theorem setParameters_counterexample :
    (setParameters initState 10 (-50) 0 30).drumRadius = -(1/2)
    ∧ (setParameters initState 10 (-50) 0 30).vaneCount = 0
    ∧ initState.drumRadius = 4/5
    ∧ ¬ ((setParameters initState 10 (-50) 0 30).drumRadius = initState.drumRadius
        ∨ 0 < (setParameters initState 10 (-50) 0 30).drumRadius) := by
  have h1 : (setParameters initState 10 (-50) 0 30).drumRadius = -(1/2) := by
    show (-50 : ℝ) / 100 = -(1/2)
    norm_num
  have h2 : (setParameters initState 10 (-50) 0 30).vaneCount = 0 := by
    show ⌊(0 : ℝ)⌋ = 0
    simp
  have h3 : initState.drumRadius = 4/5 := by
    show (0.80 : ℝ) = 4/5
    norm_num
  refine ⟨h1, h2, h3, ?_⟩
  rw [h1, h3]
  push_neg
  constructor <;> norm_num

/-- C4 (amended): `setParameters` performs no validation at all: every call
stores the rpm, the radius `drumSizeCm/100`, the floored vane count and the
height fraction verbatim, recomputes the angular velocity, and regenerates
the surfaces, whatever the arguments are; non-positive vane counts yield an
empty surface list. -/
theorem setParameters_stores_unvalidated (p : Phys) (rpm cm vc pct : ℝ) :
    (setParameters p rpm cm vc pct).rpm = rpm
    ∧ (setParameters p rpm cm vc pct).drumRadius = cm / 100
    ∧ (setParameters p rpm cm vc pct).vaneCount = ⌊vc⌋
    ∧ (setParameters p rpm cm vc pct).vaneHeight = pct / 100
    ∧ (setParameters p rpm cm vc pct).drumAngularVelocity = rpm * 2 * Real.pi / 60
    ∧ (setParameters p rpm cm vc pct).surfaces = updateSurfaces ⌊vc⌋.toNat
    ∧ (setParameters p rpm cm vc pct).ball = p.ball :=
  ⟨rfl, rfl, rfl, rfl, rfl, rfl, rfl⟩

/-! ### Surface regeneration (C9): decimal ids are pairwise distinct -/

lemma toDigitsCore_ten (fuel : ℕ) : ∀ (n : ℕ) (ds : List Char), 0 < n → n < fuel →
    Nat.toDigitsCore 10 fuel n ds = ((Nat.digits 10 n).map Nat.digitChar).reverse ++ ds := by
  induction fuel with
  | zero => intro n ds hn hf; omega
  | succ f ih =>
    intro n ds hn hf
    rw [show Nat.toDigitsCore 10 (f+1) n ds
        = (if n / 10 = 0 then Nat.digitChar (n % 10) :: ds
           else Nat.toDigitsCore 10 f (n / 10) (Nat.digitChar (n % 10) :: ds)) from by
      simp [Nat.toDigitsCore]]
    rw [Nat.digits_def' (by norm_num : (1:ℕ) < 10) hn]
    by_cases h10 : n / 10 = 0
    · rw [if_pos h10, h10, Nat.digits_zero]
      simp
    · rw [if_neg h10]
      rw [ih (n / 10) _ (Nat.pos_of_ne_zero h10) (by
        have := Nat.div_lt_self hn (by norm_num : (1:ℕ) < 10)
        omega)]
      simp [List.reverse_cons, List.append_assoc]

lemma repr_eq_of_pos (n : ℕ) (hn : 0 < n) :
    Nat.repr n = (((Nat.digits 10 n).map Nat.digitChar).reverse).asString := by
  show (Nat.toDigits 10 n).asString = _
  rw [Nat.toDigits, toDigitsCore_ten (n+1) n [] hn (by omega), List.append_nil]

lemma digitChar_inj : ∀ a < 10, ∀ b < 10, Nat.digitChar a = Nat.digitChar b → a = b := by
  decide

lemma map_digitChar_inj : ∀ (l₁ l₂ : List ℕ), (∀ a ∈ l₁, a < 10) → (∀ a ∈ l₂, a < 10) →
    l₁.map Nat.digitChar = l₂.map Nat.digitChar → l₁ = l₂ := by
  intro l₁
  induction l₁ with
  | nil =>
    intro l₂ _ _ h
    cases l₂ with
    | nil => rfl
    | cons b t₂ => simp at h
  | cons a t ih =>
    intro l₂ h₁ h₂ h
    cases l₂ with
    | nil => simp at h
    | cons b t₂ =>
      simp only [List.map_cons, List.cons.injEq] at h
      have ha : a = b := digitChar_inj a (h₁ a (by simp)) b (h₂ b (by simp)) h.1
      rw [ha, ih t₂ (fun x hx => h₁ x (by simp [hx])) (fun x hx => h₂ x (by simp [hx])) h.2]

lemma asString_inj (l₁ l₂ : List Char) (h : l₁.asString = l₂.asString) : l₁ = l₂ :=
  congrArg String.data h

/-- Decimal printing of naturals is injective. -/
lemma nat_repr_injective : Function.Injective Nat.repr := by
  have key : ∀ m n : ℕ, 0 < m → 0 < n → Nat.repr m = Nat.repr n → m = n := by
    intro m n hm hn h
    rw [repr_eq_of_pos m hm, repr_eq_of_pos n hn] at h
    have h2 := List.reverse_injective (asString_inj _ _ h)
    have h3 := map_digitChar_inj _ _
      (fun a ha => Nat.digits_lt_base (by norm_num) ha)
      (fun a ha => Nat.digits_lt_base (by norm_num) ha) h2
    exact Nat.digits_inj_iff.mp h3
  have zero_case : ∀ n : ℕ, 0 < n → Nat.repr 0 ≠ Nat.repr n := by
    intro n hn h
    rw [repr_eq_of_pos n hn] at h
    have h0 : Nat.repr 0 = (['0'] : List Char).asString := rfl
    rw [h0] at h
    have h2 : List.map Nat.digitChar (Nat.digits 10 n) = ['0'] := by
      have hr := (asString_inj _ _ h).symm
      rw [List.reverse_eq_iff] at hr
      simpa using hr
    have h3 : Nat.digits 10 n = [0] := map_digitChar_inj _ _
      (fun a ha => Nat.digits_lt_base (by norm_num) ha)
      (by intro a ha; simp at ha; omega)
      (by rw [h2]; rfl)
    have h4 := Nat.ofDigits_digits 10 n
    rw [h3] at h4
    simp [Nat.ofDigits] at h4
    omega
  intro m n h
  rcases Nat.eq_zero_or_pos m with hm | hm
  · rcases Nat.eq_zero_or_pos n with hn | hn
    · rw [hm, hn]
    · exact absurd (hm ▸ h) (zero_case n hn)
  · rcases Nat.eq_zero_or_pos n with hn | hn
    · exact absurd (hn ▸ h.symm) (zero_case m hm)
    · exact key m n hm hn h

lemma drumId_inj {i j : ℕ} (h : "drum_" ++ Nat.repr i = "drum_" ++ Nat.repr j) : i = j := by
  have hd := congrArg String.data h
  rw [String.data_append, String.data_append] at hd
  exact nat_repr_injective (String.ext (List.append_cancel_left hd))

lemma leadId_inj {i j : ℕ}
    (h : "vane_" ++ Nat.repr i ++ "_lead" = "vane_" ++ Nat.repr j ++ "_lead") : i = j := by
  have hd := congrArg String.data h
  rw [String.data_append, String.data_append, String.data_append, String.data_append] at hd
  exact nat_repr_injective (String.ext
    (List.append_cancel_left (List.append_cancel_right hd)))

lemma trailId_inj {i j : ℕ}
    (h : "vane_" ++ Nat.repr i ++ "_trail" = "vane_" ++ Nat.repr j ++ "_trail") : i = j := by
  have hd := congrArg String.data h
  rw [String.data_append, String.data_append, String.data_append, String.data_append] at hd
  exact nat_repr_injective (String.ext
    (List.append_cancel_left (List.append_cancel_right hd)))

lemma drumId_head (i : ℕ) : ("drum_" ++ Nat.repr i).data.head? = some 'd' := by
  rw [String.data_append]
  rfl

lemma leadId_head (i : ℕ) : ("vane_" ++ Nat.repr i ++ "_lead").data.head? = some 'v' := by
  rw [String.data_append, String.data_append]
  rfl

lemma trailId_head (i : ℕ) : ("vane_" ++ Nat.repr i ++ "_trail").data.head? = some 'v' := by
  rw [String.data_append, String.data_append]
  rfl

lemma leadId_last (i : ℕ) : ("vane_" ++ Nat.repr i ++ "_lead").data.getLast? = some 'd' := by
  rw [String.data_append, List.getLast?_append]
  rfl

lemma trailId_last (i : ℕ) : ("vane_" ++ Nat.repr i ++ "_trail").data.getLast? = some 'l' := by
  rw [String.data_append, List.getLast?_append]
  rfl

lemma drum_ne_lead (i j : ℕ) : "drum_" ++ Nat.repr i ≠ "vane_" ++ Nat.repr j ++ "_lead" := by
  intro h
  have h1 := drumId_head i
  rw [h, leadId_head j] at h1
  exact absurd (Option.some.inj h1) (by decide)

lemma drum_ne_trail (i j : ℕ) : "drum_" ++ Nat.repr i ≠ "vane_" ++ Nat.repr j ++ "_trail" := by
  intro h
  have h1 := drumId_head i
  rw [h, trailId_head j] at h1
  exact absurd (Option.some.inj h1) (by decide)

lemma lead_ne_trail (i j : ℕ) :
    "vane_" ++ Nat.repr i ++ "_lead" ≠ "vane_" ++ Nat.repr j ++ "_trail" := by
  intro h
  have h1 := leadId_last i
  rw [h, trailId_last j] at h1
  exact absurd (Option.some.inj h1) (by decide)

lemma updateSurfaces_succ (n : ℕ) :
    updateSurfaces (n+1) = updateSurfaces n ++
      [ { type := SurfaceType.drum, id := "drum_" ++ Nat.repr n,
          index := (n : ℤ), color := getSurfaceColor (n * 2) },
        { type := SurfaceType.vaneLeading, id := "vane_" ++ Nat.repr n ++ "_lead",
          index := (n : ℤ), color := getSurfaceColor (n * 2 + 1) },
        { type := SurfaceType.vaneTrailing, id := "vane_" ++ Nat.repr n ++ "_trail",
          index := (n : ℤ), color := getSurfaceColor (n * 2 + 1) } ] := by
  rw [updateSurfaces, updateSurfaces, List.range_succ, List.flatMap_append]
  simp

lemma mem_updateSurfaces (n : ℕ) (s : Surface) (h : s ∈ updateSurfaces n) :
    ∃ i, i < n ∧ s.index = (i : ℤ) ∧
      (s.id = "drum_" ++ Nat.repr i ∨ s.id = "vane_" ++ Nat.repr i ++ "_lead"
        ∨ s.id = "vane_" ++ Nat.repr i ++ "_trail") := by
  rw [updateSurfaces, List.mem_flatMap] at h
  obtain ⟨i, hi, hs⟩ := h
  rw [List.mem_range] at hi
  refine ⟨i, hi, ?_⟩
  simp only [List.mem_cons, List.not_mem_nil, or_false] at hs
  rcases hs with rfl | rfl | rfl
  · exact ⟨rfl, Or.inl rfl⟩
  · exact ⟨rfl, Or.inr (Or.inl rfl)⟩
  · exact ⟨rfl, Or.inr (Or.inr rfl)⟩

lemma updateSurfaces_length (n : ℕ) : (updateSurfaces n).length = 3 * n := by
  induction n with
  | zero => rfl
  | succ m ih =>
    rw [updateSurfaces_succ, List.length_append, ih]
    simp
    omega

lemma updateSurfaces_ids_nodup (n : ℕ) :
    ((updateSurfaces n).map (fun s => s.id)).Nodup := by
  induction n with
  | zero => exact List.nodup_nil
  | succ m ih =>
    rw [updateSurfaces_succ, List.map_append, List.nodup_append]
    refine ⟨ih, ?_, ?_⟩
    · rw [List.map_cons, List.map_cons, List.map_cons, List.map_nil]
      refine List.nodup_cons.mpr ⟨?_, List.nodup_cons.mpr ⟨?_, List.nodup_singleton _⟩⟩
      · intro hmem
        simp only [List.mem_cons, List.not_mem_nil, or_false] at hmem
        rcases hmem with hm | hm
        · exact drum_ne_lead m m hm
        · exact drum_ne_trail m m hm
      · intro hmem
        simp only [List.mem_cons, List.not_mem_nil, or_false] at hmem
        exact lead_ne_trail m m hmem
    · intro x hx hmem
      rw [List.mem_map] at hx
      obtain ⟨s, hs, hid⟩ := hx
      obtain ⟨i, hi, _, hcase⟩ := mem_updateSurfaces m s hs
      simp only [List.map_cons, List.map_nil, List.mem_cons, List.mem_singleton,
        List.not_mem_nil, or_false] at hmem
      rcases hcase with hc | hc | hc <;> rcases hmem with hm | hm | hm <;>
        rw [← hid, hc] at hm
      · exact absurd (drumId_inj hm) (by omega)
      · exact absurd hm (drum_ne_lead i m)
      · exact absurd hm (drum_ne_trail i m)
      · exact absurd hm.symm (drum_ne_lead m i)
      · exact absurd (leadId_inj hm) (by omega)
      · exact absurd hm (lead_ne_trail i m)
      · exact absurd hm.symm (drum_ne_trail m i)
      · exact absurd hm.symm (lead_ne_trail m i)
      · exact absurd (trailId_inj hm) (by omega)

lemma countP_updateSurfaces_ge (m i : ℕ) (him : m ≤ i) (st : SurfaceType) :
    (updateSurfaces m).countP (fun s => decide (s.type = st ∧ s.index = (i:ℤ))) = 0 := by
  rw [List.countP_eq_zero]
  intro s hs
  obtain ⟨j, hj, hidx, _⟩ := mem_updateSurfaces m s hs
  simp only [decide_eq_true_eq, not_and]
  intro _
  rw [hidx]
  intro hji
  have : j = i := by exact_mod_cast hji
  omega

lemma countP_block (st : SurfaceType) (i m : ℕ) :
    ([ ({ type := SurfaceType.drum, id := "drum_" ++ Nat.repr m,
          index := (m : ℤ), color := getSurfaceColor (m * 2) } : Surface),
        { type := SurfaceType.vaneLeading, id := "vane_" ++ Nat.repr m ++ "_lead",
          index := (m : ℤ), color := getSurfaceColor (m * 2 + 1) },
        { type := SurfaceType.vaneTrailing, id := "vane_" ++ Nat.repr m ++ "_trail",
          index := (m : ℤ), color := getSurfaceColor (m * 2 + 1) } ]).countP
      (fun s => decide (s.type = st ∧ s.index = (i:ℤ))) = if i = m then 1 else 0 := by
  rcases st <;> by_cases him : i = m <;>
    simp [List.countP_cons, him, Nat.cast_inj] <;> omega

lemma countP_updateSurfaces (n : ℕ) (st : SurfaceType) (i : ℕ) (hi : i < n) :
    (updateSurfaces n).countP (fun s => decide (s.type = st ∧ s.index = (i:ℤ))) = 1 := by
  induction n with
  | zero => omega
  | succ m ih =>
    rw [updateSurfaces_succ, List.countP_append, countP_block]
    by_cases him : i < m
    · rw [ih him, if_neg (by omega)]
    · have him2 : i = m := by omega
      rw [if_pos him2, him2, countP_updateSurfaces_ge m m (le_refl m) st]

/-- C9: after any parameter change the surface set has exactly `3·vaneCount`
entries, the generated ids are pairwise distinct, and each index
`i < vaneCount` owns exactly one drum segment, one leading vane face and one
trailing vane face.  `setParameters` installs exactly this list. -/
theorem surfaces_regeneration (n i : ℕ) (q : Phys) (rpmArg cmArg vcArg pctArg : ℝ)
    (hn : 1 ≤ n) (hi : i < n) (hvc : ⌊vcArg⌋.toNat = n) :
    (updateSurfaces n).length = 3 * n
    ∧ ((updateSurfaces n).map (fun s => s.id)).Nodup
    ∧ (updateSurfaces n).countP
        (fun s => decide (s.type = SurfaceType.drum ∧ s.index = (i:ℤ))) = 1
    ∧ (updateSurfaces n).countP
        (fun s => decide (s.type = SurfaceType.vaneLeading ∧ s.index = (i:ℤ))) = 1
    ∧ (updateSurfaces n).countP
        (fun s => decide (s.type = SurfaceType.vaneTrailing ∧ s.index = (i:ℤ))) = 1
    ∧ (setParameters q rpmArg cmArg vcArg pctArg).surfaces = updateSurfaces n := by
  refine ⟨updateSurfaces_length n, updateSurfaces_ids_nodup n,
    countP_updateSurfaces n _ i hi, countP_updateSurfaces n _ i hi,
    countP_updateSurfaces n _ i hi, ?_⟩
  show updateSurfaces ⌊vcArg⌋.toNat = updateSurfaces n
  rw [hvc]

/-- C9 witness: the surface-set theorem at `vaneCount = 2`, index `1`. -/
theorem surfaces_regeneration_witness :
    ((1:ℕ) ≤ 2 ∧ (1:ℕ) < 2 ∧ (⌊(2:ℝ)⌋.toNat = 2))
    ∧ ((updateSurfaces 2).length = 3 * 2
      ∧ ((updateSurfaces 2).map (fun s => s.id)).Nodup
      ∧ (updateSurfaces 2).countP
          (fun s => decide (s.type = SurfaceType.drum ∧ s.index = ((1:ℕ):ℤ))) = 1
      ∧ (updateSurfaces 2).countP
          (fun s => decide (s.type = SurfaceType.vaneLeading ∧ s.index = ((1:ℕ):ℤ))) = 1
      ∧ (updateSurfaces 2).countP
          (fun s => decide (s.type = SurfaceType.vaneTrailing ∧ s.index = ((1:ℕ):ℤ))) = 1
      ∧ (setParameters initState 10 80 2 30).surfaces = updateSurfaces 2) := by
  have h1 : (1:ℕ) ≤ 2 := by norm_num
  have h2 : (1:ℕ) < 2 := by norm_num
  have h3 : ⌊(2:ℝ)⌋.toNat = 2 := by
    rw [show ⌊(2:ℝ)⌋ = 2 from by norm_num]
    rfl
  exact ⟨⟨h1, h2, h3⟩, surfaces_regeneration 2 1 initState 10 80 2 30 h1 h2 h3⟩

/-! ### Vane geometry at concrete configurations (unit drum, half-height vanes,
four vanes: the vane angles are 0, π/2, π, 3π/2) -/

lemma norm2_zero_left (y : ℝ) : norm2 0 y = |y| := by
  rw [norm2, show (0:ℝ) * 0 + y * y = y * y by ring, Real.sqrt_mul_self_eq_abs]

/-- Vane 0 lies on the positive x-axis from `(1/2, 0)` to `(1, 0)`; projecting
the ball `(x, y)` gives `t = 2(x - 1/2)` and the perpendicular distance `|y|`. -/
lemma vane0_eval (p : Phys) (hR : p.drumRadius = 1) (hh : p.vaneHeight = 1/2) :
    vaneLength p 0 = 1/2
    ∧ vaneT p 0 = 2 * (p.ball.x - 1/2)
    ∧ vaneDistX p 0 = 0
    ∧ vaneDistY p 0 = p.ball.y
    ∧ vaneDist p 0 = |p.ball.y| := by
  have h0 := vane0_geom p
  have hin : vaneInnerRadius p = 1/2 := by
    rw [vaneInnerRadius, hR, hh]
    norm_num
  have hlen : vaneLength p 0 = 1/2 := by
    rw [vaneLength, h0.2.2.1, h0.2.2.2, hin, hR]
    exact norm2_eq_of _ _ _ (by norm_num) (by norm_num)
  have ht : vaneT p 0 = 2 * (p.ball.x - 1/2) := by
    rw [vaneT, vaneDx, vaneDy, h0.1, h0.2.1, h0.2.2.1, h0.2.2.2, hlen, hin, hR]
    field_simp
    ring
  have hdx : vaneDistX p 0 = 0 := by
    rw [vaneDistX, vaneClosestX, h0.1, h0.2.2.1, ht, hin, hR]
    ring
  have hdy : vaneDistY p 0 = p.ball.y := by
    rw [vaneDistY, vaneClosestY, h0.2.1, h0.2.2.2, ht]
    ring
  have hdist : vaneDist p 0 = |p.ball.y| := by
    rw [vaneDist, hdx, hdy, norm2_zero_left]
  exact ⟨hlen, ht, hdx, hdy, hdist⟩

lemma vane123_geom (p : Phys) (h4 : p.vaneCount = 4) :
    (vaneX1 p 1 = 0 ∧ vaneY1 p 1 = vaneInnerRadius p
      ∧ vaneVdx p 1 = 0 ∧ vaneVdy p 1 = p.drumRadius - vaneInnerRadius p)
    ∧ (vaneX1 p 2 = -vaneInnerRadius p ∧ vaneY1 p 2 = 0
      ∧ vaneVdx p 2 = -(p.drumRadius - vaneInnerRadius p) ∧ vaneVdy p 2 = 0)
    ∧ (vaneX1 p 3 = 0 ∧ vaneY1 p 3 = -vaneInnerRadius p
      ∧ vaneVdx p 3 = 0 ∧ vaneVdy p 3 = -(p.drumRadius - vaneInnerRadius p)) := by
  have ha1 : vaneAngle p 1 = Real.pi / 2 := by
    rw [vaneAngle, h4]
    push_cast
    ring
  have ha2 : vaneAngle p 2 = Real.pi := by
    rw [vaneAngle, h4]
    push_cast
    ring
  have ha3 : vaneAngle p 3 = 3 * Real.pi / 2 := by
    rw [vaneAngle, h4]
    push_cast
    ring
  have hc3 : Real.cos (3 * Real.pi / 2) = 0 := by
    rw [show (3:ℝ) * Real.pi / 2 = Real.pi + Real.pi / 2 by ring, Real.cos_add]
    simp
  have hs3 : Real.sin (3 * Real.pi / 2) = -1 := by
    rw [show (3:ℝ) * Real.pi / 2 = Real.pi + Real.pi / 2 by ring, Real.sin_add]
    simp
  refine ⟨⟨?_, ?_, ?_, ?_⟩, ⟨?_, ?_, ?_, ?_⟩, ⟨?_, ?_, ?_, ?_⟩⟩ <;>
    simp [vaneX1, vaneY1, vaneX2, vaneY2, vaneVdx, vaneVdy, ha1, ha2, ha3, hc3, hs3] <;>
    ring

/-- In the 4-vane unit-drum configuration, vanes 1, 2, 3 (up, left, down) are
all skipped whenever the ball has `y < 1/2`, `y > -1/2` and `x > -1/2`: every
projection parameter is negative. -/
lemma vaneStep_skip123 (p : Phys) (h4 : p.vaneCount = 4)
    (hR : p.drumRadius = 1) (hh : p.vaneHeight = 1/2)
    (hy1 : p.ball.y < 1/2) (hy2 : -(1/2) < p.ball.y) (hx : -(1/2) < p.ball.x) :
    vaneStep p 1 = some (p, []) ∧ vaneStep p 2 = some (p, []) ∧ vaneStep p 3 = some (p, []) := by
  have hg := vane123_geom p h4
  have hin : vaneInnerRadius p = 1/2 := by
    rw [vaneInnerRadius, hR, hh]
    norm_num
  have hlen1 : vaneLength p 1 = 1/2 := by
    rw [vaneLength, hg.1.2.2.1, hg.1.2.2.2, hin, hR]
    exact norm2_eq_of _ _ _ (by norm_num) (by norm_num)
  have hlen2 : vaneLength p 2 = 1/2 := by
    rw [vaneLength, hg.2.1.2.2.1, hg.2.1.2.2.2, hin, hR]
    exact norm2_eq_of _ _ _ (by norm_num) (by norm_num)
  have hlen3 : vaneLength p 3 = 1/2 := by
    rw [vaneLength, hg.2.2.2.2.1, hg.2.2.2.2.2, hin, hR]
    exact norm2_eq_of _ _ _ (by norm_num) (by norm_num)
  have ht1 : vaneT p 1 = 2 * (p.ball.y - 1/2) := by
    rw [vaneT, vaneDx, vaneDy, hg.1.1, hg.1.2.1, hg.1.2.2.1, hg.1.2.2.2, hlen1, hin, hR]
    field_simp
    ring
  have ht2 : vaneT p 2 = -(2 * (p.ball.x + 1/2)) := by
    rw [vaneT, vaneDx, vaneDy, hg.2.1.1, hg.2.1.2.1, hg.2.1.2.2.1, hg.2.1.2.2.2, hlen2, hin, hR]
    field_simp
    ring
  have ht3 : vaneT p 3 = -(2 * (p.ball.y + 1/2)) := by
    rw [vaneT, vaneDx, vaneDy, hg.2.2.1, hg.2.2.2.1, hg.2.2.2.2.1, hg.2.2.2.2.2, hlen3, hin, hR]
    field_simp
    ring
  refine ⟨?_, ?_, ?_⟩
  · rw [vaneStep, if_neg (by rw [hlen1]; norm_num), if_neg (by rw [ht1]; intro hc; linarith [hc.1])]
  · rw [vaneStep, if_neg (by rw [hlen2]; norm_num), if_neg (by rw [ht2]; intro hc; linarith [hc.1])]
  · rw [vaneStep, if_neg (by rw [hlen3]; norm_num), if_neg (by rw [ht3]; intro hc; linarith [hc.1])]

/-! ### Vane collision detection (C3) -/

/-- C3 (amended): the vane test resolves a collision exactly when the raw
projection parameter `t` lies in `[0, 1]` AND the distance to the projection
point is below the ball radius; there is no clamping, so a state whose
projection falls outside `[0, 1]` is skipped entirely, even if the ball
overlaps a vane endpoint.  On `[0, 1]` the code's distance agrees with the
spec's clamped distance, so resolution is equivalent to the spec's clamped
predicate conjoined with `t ∈ [0, 1]`. -/
theorem vane_projection_no_clamping (p₁ p₂ : Phys) (i₁ i₂ : ℕ)
    (h₁len : vaneLength p₁ i₁ ≠ 0) (h₂not : ¬ vaneResolvesHit p₂ i₂) :
    (vaneResolvesHit p₁ i₁ ↔ (specVaneCollides p₁ i₁ ∧ 0 ≤ vaneT p₁ i₁ ∧ vaneT p₁ i₁ ≤ 1))
    ∧ vaneStep p₂ i₂ = some (p₂, []) := by
  have hspec : ∀ (q : Phys) (j : ℕ), 0 ≤ vaneT q j → vaneT q j ≤ 1 →
      (specVaneCollides q j ↔ vaneDist q j < q.ball.radius) := by
    intro q j h0 h1
    have hT : specVaneClosestT q j = vaneT q j := by
      rw [specVaneClosestT, min_eq_right h1, max_eq_right h0]
    rw [specVaneCollides, hT]
    exact Iff.rfl
  constructor
  · constructor
    · rintro ⟨_, ht, hdist⟩
      exact ⟨(hspec p₁ i₁ ht.1 ht.2).mpr hdist, ht⟩
    · rintro ⟨hcol, ht1, ht2⟩
      exact ⟨h₁len, ⟨ht1, ht2⟩, (hspec p₁ i₁ ht1 ht2).mp hcol⟩
  · by_cases hl : vaneLength p₂ i₂ = 0
    · rw [vaneStep, if_pos hl]
    · rw [vaneStep, if_neg hl]
      by_cases ht : 0 ≤ vaneT p₂ i₂ ∧ vaneT p₂ i₂ ≤ 1
      · rw [if_pos ht, if_neg (fun hd => h₂not ⟨hl, ht, hd⟩)]
      · rw [if_neg ht]

/-- The ball position for the C3 counterexample: near the inner endpoint of
vane 0, overlapping it, but with the raw projection parameter below 0. -/
def c3State : Phys := mkState 1 (1/2) 4 (9/20) (1/20) 0 0 (1/10)

/-- C3 witness: the amended theorem at a genuinely resolving state and at the
skipped endpoint-overlap state. -/
theorem vane_projection_no_clamping_witness :
    (vaneLength (mkState 1 (1/2) 4 (7/10) (1/20) 0 (-1) (1/10)) 0 ≠ 0
      ∧ ¬ vaneResolvesHit c3State 0)
    ∧ ((vaneResolvesHit (mkState 1 (1/2) 4 (7/10) (1/20) 0 (-1) (1/10)) 0
        ↔ (specVaneCollides (mkState 1 (1/2) 4 (7/10) (1/20) 0 (-1) (1/10)) 0
            ∧ 0 ≤ vaneT (mkState 1 (1/2) 4 (7/10) (1/20) 0 (-1) (1/10)) 0
            ∧ vaneT (mkState 1 (1/2) 4 (7/10) (1/20) 0 (-1) (1/10)) 0 ≤ 1))
      ∧ vaneStep c3State 0 = some (c3State, [])) := by
  have hv := vaneEval0 0 (-1)
  have h₁len : vaneLength (mkState 1 (1/2) 4 (7/10) (1/20) 0 (-1) (1/10)) 0 ≠ 0 := by
    rw [hv.1]
    norm_num
  have hc3 := vane0_eval c3State rfl rfl
  have h₂not : ¬ vaneResolvesHit c3State 0 := by
    rintro ⟨_, ht, _⟩
    have h1 := ht.1
    rw [hc3.2.1] at h1
    have : ¬ (0:ℝ) ≤ 2 * ((9:ℝ)/20 - 1/2) := by norm_num
    exact this h1
  exact ⟨⟨h₁len, h₂not⟩,
    vane_projection_no_clamping (mkState 1 (1/2) 4 (7/10) (1/20) 0 (-1) (1/10)) c3State 0 0
      h₁len h₂not⟩

/-- C3 counterexample: at `c3State` the ball overlaps the inner endpoint of
vane 0 (the spec's clamped predicate reports a collision), yet the vane loop
resolves nothing: the state passes through `checkVaneCollisions` unchanged
with no event. -/
theorem vane_clamping_counterexample :
    specVaneCollides c3State 0 ∧ checkVaneCollisions c3State = some (c3State, []) := by
  have hc3 := vane0_eval c3State rfl rfl
  have hg0 := vane0_geom c3State
  have hin : vaneInnerRadius c3State = 1/2 := by
    rw [vaneInnerRadius]
    show (1:ℝ) * (1 - 1/2) = 1/2
    norm_num
  constructor
  · have hT : specVaneClosestT c3State 0 = 0 := by
      rw [specVaneClosestT, hc3.2.1]
      rw [show (2 : ℝ) * (c3State.ball.x - 1/2) = -(1/10) from by
        show (2 : ℝ) * ((9:ℝ)/20 - 1/2) = -(1/10); norm_num]
      rw [min_eq_right (by norm_num : (-(1/10) : ℝ) ≤ 1), max_eq_left (by norm_num : (-(1/10) : ℝ) ≤ 0)]
    rw [specVaneCollides, hT, hg0.1, hg0.2.1, hg0.2.2.1, hg0.2.2.2, hin]
    rw [show c3State.ball.x - (1/2 + 0 * (c3State.drumRadius - 1/2)) = -(1/20) from by
      show (9:ℝ)/20 - (1/2 + 0 * ((1:ℝ) - 1/2)) = -(1/20); norm_num]
    rw [show c3State.ball.y - (0 + 0 * 0) = 1/20 from by
      show (1:ℝ)/20 - (0 + 0 * 0) = 1/20; norm_num]
    show norm2 (-(1/20)) (1/20) < (1:ℝ)/10
    rw [norm2, show (-(1/20) : ℝ) * (-(1/20)) + (1/20) * (1/20) = 1/200 by norm_num]
    exact (Real.sqrt_lt' (by norm_num)).mpr (by norm_num)
  · have h0 : vaneStep c3State 0 = some (c3State, []) := by
      rw [vaneStep, if_neg (by rw [hc3.1]; norm_num), if_neg ?_]
      rw [hc3.2.1]
      intro hc
      have := hc.1
      have hneg : ¬ (0:ℝ) ≤ 2 * ((9:ℝ)/20 - 1/2) := by norm_num
      exact hneg this
    have hskip := vaneStep_skip123 c3State rfl rfl rfl
      (by show (1:ℝ)/20 < 1/2; norm_num)
      (by show -(1/2 : ℝ) < 1/20; norm_num)
      (by show -(1/2 : ℝ) < 9/20; norm_num)
    rw [checkVaneCollisions, show List.range c3State.vaneCount.toNat = [0, 1, 2, 3] from rfl]
    simp [h0, hskip.1, hskip.2.1, hskip.2.2]

/-! ### Containment violation (C1 counterexample) -/

/-- Pre-collision state: the ball has penetrated the wall near vane 0. -/
def c1State : Phys := mkState 1 (1/2) 4 (9/10) (19/200) 0 0 (1/10)

/-- The state after the wall correction pulls the ball back to distance
`drumRadius - radius = 9/10` from the axis. -/
def c1Mid : Phys := mkState 1 (1/2) 4 (162/181) (171/1810) 0 0 (1/10)

/-- The state after vane 0 then pushes the ball tangentially away from
itself, back out past the wall. -/
def c1Final : Phys := mkState 1 (1/2) 4 (162/181) (1/10) 0 0 (1/10)

lemma c1State_dist : ballDist c1State = 181/200 := by
  show norm2 (9/10) (19/200) = 181/200
  exact norm2_eq_of _ _ _ (by norm_num) (by norm_num)

lemma c1_wall : wallPhase c1State = some (c1Mid, []) := by
  have hdne : ballDist c1State ≠ 0 := by rw [c1State_dist]; norm_num
  have hfire : c1State.drumRadius < ballDist c1State + c1State.ball.radius := by
    rw [c1State_dist]
    show (1:ℝ) < 181/200 + 1/10
    norm_num
  have hvn : wallVn c1State = 0 := by
    rw [wallVn]
    show (0:ℝ) * wallNx c1State + (0:ℝ) * wallNy c1State = 0
    ring
  have hcx : wallCorrectedX c1State = 162/181 := by
    rw [wallCorrectedX_eq c1State hdne, c1State_dist]
    show (9:ℝ)/10 * ((1 - 1/10) / (181/200)) = 162/181
    norm_num
  have hcy : wallCorrectedY c1State = 171/1810 := by
    rw [wallCorrectedY_eq c1State hdne, c1State_dist]
    show (19:ℝ)/200 * ((1 - 1/10) / (181/200)) = 171/1810
    norm_num
  rw [wallPhase_separating c1State hfire hdne (by rw [hvn]; norm_num), hcx, hcy]
  rfl

lemma c1_vane0 : vaneStep c1Mid 0 = some (c1Final, []) := by
  have hv := vane0_eval c1Mid rfl rfl
  have hylit : c1Mid.ball.y = 171/1810 := rfl
  have hdistv : vaneDist c1Mid 0 = 171/1810 := by
    rw [hv.2.2.2.2, hylit, abs_of_pos (by norm_num)]
  have hlen : vaneLength c1Mid 0 ≠ 0 := by rw [hv.1]; norm_num
  have ht : 0 ≤ vaneT c1Mid 0 ∧ vaneT c1Mid 0 ≤ 1 := by
    rw [hv.2.1]
    constructor
    · show (0:ℝ) ≤ 2 * ((162:ℝ)/181 - 1/2)
      norm_num
    · show (2:ℝ) * ((162:ℝ)/181 - 1/2) ≤ 1
      norm_num
  have hlt : vaneDist c1Mid 0 < c1Mid.ball.radius := by
    rw [hdistv]
    show (171:ℝ)/1810 < 1/10
    norm_num
  have hne : vaneDist c1Mid 0 ≠ 0 := by rw [hdistv]; norm_num
  have hnx : vaneNx c1Mid 0 = 0 := by
    rw [vaneNx, hv.2.2.1, hdistv]
    norm_num
  have hny : vaneNy c1Mid 0 = 1 := by
    rw [vaneNy, hv.2.2.2.1, hdistv, hylit]
    norm_num
  have hvn : vaneVn c1Mid 0 = 0 := by
    rw [vaneVn, hnx, hny]
    show (0:ℝ) * 0 + (0:ℝ) * 1 = 0
    ring
  have hcorx : vaneCorrectedX c1Mid 0 = 162/181 := by
    rw [vaneCorrectedX, hnx]
    show (162:ℝ)/181 + 0 * vanePenetration c1Mid 0 = 162/181
    ring
  have hcory : vaneCorrectedY c1Mid 0 = 1/10 := by
    rw [vaneCorrectedY, hny, vanePenetration, hdistv]
    show (171:ℝ)/1810 + 1 * (1/10 - 171/1810) = 1/10
    norm_num
  rw [vaneStep_separating c1Mid 0 hlen ht hlt hne (by rw [hvn]; norm_num), hcorx, hcory]
  rfl

lemma c1_check : checkVaneCollisions c1Mid = some (c1Final, []) := by
  have hskip := vaneStep_skip123 c1Final rfl rfl rfl
    (by show (1:ℝ)/10 < 1/2; norm_num)
    (by show -(1/2 : ℝ) < 1/10; norm_num)
    (by show -(1/2 : ℝ) < 162/181; norm_num)
  rw [checkVaneCollisions, show List.range c1Mid.vaneCount.toNat = [0, 1, 2, 3] from rfl]
  simp [c1_vane0, hskip.1, hskip.2.1, hskip.2.2]

/-- C1 counterexample: at `c1State` (a wall penetration of depth `1/200`
with the ball resting beside vane 0), `handleCollisions` first resolves the
wall exactly — but the vane resolution then pushes the ball outward again,
and the final state violates `ballDist + radius ≤ drumRadius` by about
`6·10⁻⁴`, far beyond floating-point tolerance. -/
theorem containment_counterexample :
    c1State.drumRadius < ballDist c1State + c1State.ball.radius
    ∧ handleCollisions c1State = some (c1Final, [])
    ∧ c1Final.drumRadius + 1/10000 < ballDist c1Final + c1Final.ball.radius := by
  refine ⟨?_, ?_, ?_⟩
  · rw [c1State_dist]
    show (1:ℝ) < 181/200 + 1/10
    norm_num
  · rw [handleCollisions, c1_wall]
    simp [c1_check]
  · have hq : ballDist c1Final = Real.sqrt (2657161/3276100) := by
      show norm2 (162/181) (1/10) = Real.sqrt (2657161/3276100)
      rw [norm2]
      congr 1
      norm_num
    have hsq : (9001/10000 : ℝ) < Real.sqrt (2657161/3276100) :=
      (Real.lt_sqrt (by norm_num)).mpr (by norm_num)
    rw [hq]
    show (1:ℝ) + 1/10000 < Real.sqrt (2657161/3276100) + 1/10
    linarith

/-! ### Degenerate geometry (C8) -/

lemma norm2_zero : norm2 0 0 = 0 := by
  rw [norm2]
  simp

lemma centrifugalAccel_center (p : Phys) (hx : p.ball.x = 0) (hy : p.ball.y = 0) :
    centrifugalAccel p = (0, 0) := by
  rw [centrifugalAccel]
  split
  · rw [if_neg]
    rw [hx, hy, norm2_zero]
    norm_num
  · rfl

lemma norm2_eq_complex (x y : ℝ) : norm2 x y = Complex.abs { re := x, im := y } := by
  rw [Complex.abs_apply, Complex.normSq_mk, norm2]

/-- Reverse triangle inequality for `norm2`. -/
lemma norm2_triangle_lower (a b u v : ℝ) :
    norm2 u v - norm2 a b ≤ norm2 (a - u) (b - v) := by
  rw [norm2_eq_complex, norm2_eq_complex, norm2_eq_complex]
  have h : ({ re := u, im := v } : ℂ) = { re := a, im := b }
      - { re := a - u, im := b - v } := by
    apply Complex.ext <;> simp
  rw [h]
  have := norm_sub_le ({ re := a, im := b } : ℂ) ({ re := a - u, im := b - v } : ℂ)
  simp only [Complex.norm_eq_abs] at this ⊢
  linarith

/-- If the ball (with its radius) stays within the vane inner circle, vane `i`
resolves nothing. -/
lemma vaneStep_far (q : Phys) (i : ℕ)
    (hfar : ballDist q + q.ball.radius ≤ vaneInnerRadius q)
    (hinn0 : 0 ≤ vaneInnerRadius q) (hinnR : vaneInnerRadius q ≤ q.drumRadius) :
    vaneStep q i = some (q, []) := by
  by_cases hl : vaneLength q i = 0
  · rw [vaneStep, if_pos hl]
  · rw [vaneStep, if_neg hl]
    by_cases ht : 0 ≤ vaneT q i ∧ vaneT q i ≤ 1
    · rw [if_pos ht, if_neg ?_]
      have hcX : vaneClosestX q i = Real.cos (vaneAngle q i)
          * (vaneInnerRadius q + vaneT q i * (q.drumRadius - vaneInnerRadius q)) := by
        rw [vaneClosestX, vaneX1, vaneVdx, vaneX2, vaneX1]
        ring
      have hcY : vaneClosestY q i = Real.sin (vaneAngle q i)
          * (vaneInnerRadius q + vaneT q i * (q.drumRadius - vaneInnerRadius q)) := by
        rw [vaneClosestY, vaneY1, vaneVdy, vaneY2, vaneY1]
        ring
      have hcge : vaneInnerRadius q
          ≤ vaneInnerRadius q + vaneT q i * (q.drumRadius - vaneInnerRadius q) := by
        have := mul_nonneg ht.1 (by linarith : (0:ℝ) ≤ q.drumRadius - vaneInnerRadius q)
        linarith
      have hnormc : norm2 (vaneClosestX q i) (vaneClosestY q i)
          = vaneInnerRadius q + vaneT q i * (q.drumRadius - vaneInnerRadius q) := by
        rw [hcX, hcY, norm2_scale]
        rw [show norm2 (Real.cos (vaneAngle q i)) (Real.sin (vaneAngle q i)) = 1 from by
          rw [norm2, show Real.cos (vaneAngle q i) * Real.cos (vaneAngle q i)
              + Real.sin (vaneAngle q i) * Real.sin (vaneAngle q i) = 1 from by
            have := Real.sin_sq_add_cos_sq (vaneAngle q i)
            nlinarith [this]]
          exact Real.sqrt_one]
        rw [one_mul, abs_of_nonneg (by linarith)]
      have hlow := norm2_triangle_lower q.ball.x q.ball.y (vaneClosestX q i) (vaneClosestY q i)
      rw [hnormc] at hlow
      have : vaneInnerRadius q - ballDist q
          ≤ norm2 (q.ball.x - vaneClosestX q i) (q.ball.y - vaneClosestY q i) := by
        rw [show ballDist q = norm2 q.ball.x q.ball.y from rfl]
        linarith
      rw [show vaneDist q i = norm2 (q.ball.x - vaneClosestX q i) (q.ball.y - vaneClosestY q i)
        from rfl]
      intro hcon
      linarith
    · rw [if_neg ht]

lemma wallPhase_skip (q : Phys) (hwall : ballDist q + q.ball.radius ≤ q.drumRadius) :
    wallPhase q = some (q, []) := by
  rw [wallPhase, if_neg (not_lt.mpr hwall)]

/-- If the ball stays within the vane inner circle, `handleCollisions` is the
identity: no NaN, no state change, no events. -/
lemma handleCollisions_far (q : Phys)
    (hfar : ballDist q + q.ball.radius ≤ vaneInnerRadius q)
    (hinn0 : 0 ≤ vaneInnerRadius q) (hinnR : vaneInnerRadius q ≤ q.drumRadius) :
    handleCollisions q = some (q, []) := by
  have hwall : ballDist q + q.ball.radius ≤ q.drumRadius := le_trans hfar hinnR
  have hfold : ∀ l : List ℕ, l.foldl
      (fun acc i => acc.bind fun pe => (vaneStep pe.1 i).map fun pe2 => (pe2.1, pe.2 ++ pe2.2))
      (some (q, [])) = some (q, []) := by
    intro l
    induction l with
    | nil => rfl
    | cons a t ih =>
      rw [List.foldl_cons]
      rw [show (some ((q : Phys), ([] : List (String × ℝ)))).bind
          (fun pe => (vaneStep pe.1 a).map fun pe2 => (pe2.1, pe.2 ++ pe2.2))
          = some (q, []) from by
        simp [vaneStep_far q a hfar hinn0 hinnR]]
      exact ih
  rw [handleCollisions, wallPhase_skip q hwall]
  simp only [Option.some_bind]
  rw [checkVaneCollisions, hfold]
  simp

/-- Integration from a resting ball at the exact centre: only gravity acts
(the centrifugal guard, the Coriolis terms and both drag guards all vanish). -/
lemma integrate_center (p : Phys) (dt : ℝ)
    (hx : p.ball.x = 0) (hy : p.ball.y = 0) (hvx : p.ball.vx = 0) (hvy : p.ball.vy = 0) :
    integrate p dt = { p with
      drumAngle := p.drumAngle + p.drumAngularVelocity * dt,
      ball := { p.ball with
        x := -p.gravity * Real.sin (p.drumAngle + p.drumAngularVelocity * dt) * dt * dt,
        y := -p.gravity * Real.cos (p.drumAngle + p.drumAngularVelocity * dt) * dt * dt,
        vx := -p.gravity * Real.sin (p.drumAngle + p.drumAngularVelocity * dt) * dt,
        vy := -p.gravity * Real.cos (p.drumAngle + p.drumAngularVelocity * dt) * dt } } := by
  have hcf := centrifugalAccel_center
    { p with drumAngle := p.drumAngle + p.drumAngularVelocity * dt } hx hy
  have hco : coriolisAccel { p with drumAngle := p.drumAngle + p.drumAngularVelocity * dt }
      = (0, 0) := by
    rw [coriolisAccel]
    split
    · rw [show ({ p with drumAngle := p.drumAngle + p.drumAngularVelocity * dt } : Phys).ball.vy
          = p.ball.vy from rfl,
        show ({ p with drumAngle := p.drumAngle + p.drumAngularVelocity * dt } : Phys).ball.vx
          = p.ball.vx from rfl, hvx, hvy]
      simp
    · rfl
  have hspeed : norm2 p.ball.vx p.ball.vy = 0 := by
    rw [hvx, hvy, norm2_zero]
  simp only [integrate, hcf, hco, hspeed]
  rw [if_neg (by norm_num : ¬ (({ p with drumAngle := p.drumAngle
      + p.drumAngularVelocity * dt } : Phys).enableAirDrag = true ∧ (0:ℝ) > 0.001
      ∧ ¬ ({ p with drumAngle := p.drumAngle
        + p.drumAngularVelocity * dt } : Phys).useQuadraticDrag = true)),
    if_neg (by norm_num : ¬ (({ p with drumAngle := p.drumAngle
      + p.drumAngularVelocity * dt } : Phys).enableAirDrag = true ∧ (0:ℝ) > 0.001
      ∧ ({ p with drumAngle := p.drumAngle
        + p.drumAngularVelocity * dt } : Phys).useQuadraticDrag = true))]
  rw [show ({ p with drumAngle := p.drumAngle + p.drumAngularVelocity * dt } : Phys).ball.x
      = p.ball.x from rfl,
    show ({ p with drumAngle := p.drumAngle + p.drumAngularVelocity * dt } : Phys).ball.y
      = p.ball.y from rfl,
    show ({ p with drumAngle := p.drumAngle + p.drumAngularVelocity * dt } : Phys).ball.vx
      = p.ball.vx from rfl,
    show ({ p with drumAngle := p.drumAngle + p.drumAngularVelocity * dt } : Phys).ball.vy
      = p.ball.vy from rfl, hx, hy, hvx, hvy]
  simp only [Prod.fst, Prod.snd]
  congr 1
  · congr 1 <;> ring

lemma norm2_sin_cos_scaled (θ k : ℝ) : norm2 (Real.sin θ * k) (Real.cos θ * k) = |k| := by
  rw [norm2_scale]
  rw [show norm2 (Real.sin θ) (Real.cos θ) = 1 from by
    rw [norm2, show Real.sin θ * Real.sin θ + Real.cos θ * Real.cos θ = 1 from by
      have := Real.sin_sq_add_cos_sq θ
      nlinarith [this]]
    exact Real.sqrt_one]
  rw [one_mul]

/-- C8 (amended): for a resting ball exactly at the centre, `step(dt)` is
NaN-free — the centrifugal contribution is zero (its division is guarded) and
the whole step succeeds — provided the one gravity substep keeps the ball
(with its radius) inside the vane inner circle.  (The guard on the vane
normal is NOT present in the source: see the counterexample, where the ball
centre sits exactly on a vane.) -/
theorem step_center_degenerate_safe (p : Phys) (dt : ℝ)
    (hx : p.ball.x = 0) (hy : p.ball.y = 0) (hvx : p.ball.vx = 0) (hvy : p.ball.vy = 0)
    (hinn0 : 0 ≤ p.drumRadius * (1 - p.vaneHeight))
    (hinnR : p.drumRadius * (1 - p.vaneHeight) ≤ p.drumRadius)
    (hsafe : |p.gravity| * (dt * dt) + p.ball.radius ≤ p.drumRadius * (1 - p.vaneHeight)) :
    centrifugalAccel p = (0, 0)
    ∧ step p dt = some (integrate p dt, []) := by
  refine ⟨centrifugalAccel_center p hx hy, ?_⟩
  have hint := integrate_center p dt hx hy hvx hvy
  have hdist : ballDist (integrate p dt) = |p.gravity| * (dt * dt) := by
    rw [hint]
    rw [show ballDist { p with
        drumAngle := p.drumAngle + p.drumAngularVelocity * dt,
        ball := { p.ball with
          x := -p.gravity * Real.sin (p.drumAngle + p.drumAngularVelocity * dt) * dt * dt,
          y := -p.gravity * Real.cos (p.drumAngle + p.drumAngularVelocity * dt) * dt * dt,
          vx := -p.gravity * Real.sin (p.drumAngle + p.drumAngularVelocity * dt) * dt,
          vy := -p.gravity * Real.cos (p.drumAngle + p.drumAngularVelocity * dt) * dt } }
      = norm2 (-p.gravity * Real.sin (p.drumAngle + p.drumAngularVelocity * dt) * dt * dt)
          (-p.gravity * Real.cos (p.drumAngle + p.drumAngularVelocity * dt) * dt * dt)
      from rfl]
    rw [show -p.gravity * Real.sin (p.drumAngle + p.drumAngularVelocity * dt) * dt * dt
        = Real.sin (p.drumAngle + p.drumAngularVelocity * dt) * (-p.gravity * (dt * dt))
      from by ring,
      show -p.gravity * Real.cos (p.drumAngle + p.drumAngularVelocity * dt) * dt * dt
        = Real.cos (p.drumAngle + p.drumAngularVelocity * dt) * (-p.gravity * (dt * dt))
      from by ring]
    rw [norm2_sin_cos_scaled]
    rw [abs_mul, abs_neg, abs_of_nonneg (mul_self_nonneg dt)]
  have hrad : (integrate p dt).ball.radius = p.ball.radius := by rw [hint]
  have hR : (integrate p dt).drumRadius = p.drumRadius := by rw [hint]
  have hh : (integrate p dt).vaneHeight = p.vaneHeight := by rw [hint]
  have hinner : vaneInnerRadius (integrate p dt) = p.drumRadius * (1 - p.vaneHeight) := by
    rw [vaneInnerRadius, hR, hh]
  rw [step, handleCollisions_far (integrate p dt)
    (by rw [hdist, hrad, hinner]; exact hsafe)
    (by rw [hinner]; exact hinn0)
    (by rw [hinner, hR]; exact hinnR)]

/-- C8 witness: a safe centred step in the default-like drum with `dt = 1/100`. -/
theorem step_center_degenerate_safe_witness :
    ((mkState 1 (1/2) 4 0 0 0 0 (1/10)).ball.x = 0
      ∧ (mkState 1 (1/2) 4 0 0 0 0 (1/10)).ball.y = 0
      ∧ (mkState 1 (1/2) 4 0 0 0 0 (1/10)).ball.vx = 0
      ∧ (mkState 1 (1/2) 4 0 0 0 0 (1/10)).ball.vy = 0
      ∧ |(mkState 1 (1/2) 4 0 0 0 0 (1/10)).gravity| * ((1/100) * (1/100))
          + (mkState 1 (1/2) 4 0 0 0 0 (1/10)).ball.radius
        ≤ (mkState 1 (1/2) 4 0 0 0 0 (1/10)).drumRadius
          * (1 - (mkState 1 (1/2) 4 0 0 0 0 (1/10)).vaneHeight))
    ∧ (centrifugalAccel (mkState 1 (1/2) 4 0 0 0 0 (1/10)) = (0, 0)
      ∧ step (mkState 1 (1/2) 4 0 0 0 0 (1/10)) (1/100)
          = some (integrate (mkState 1 (1/2) 4 0 0 0 0 (1/10)) (1/100), [])) := by
  have hsafe : |(mkState 1 (1/2) 4 0 0 0 0 (1/10)).gravity| * ((1/100) * (1/100))
      + (mkState 1 (1/2) 4 0 0 0 0 (1/10)).ball.radius
      ≤ (mkState 1 (1/2) 4 0 0 0 0 (1/10)).drumRadius
        * (1 - (mkState 1 (1/2) 4 0 0 0 0 (1/10)).vaneHeight) := by
    show |(981:ℝ)/100| * ((1/100) * (1/100)) + 1/10 ≤ 1 * (1 - 1/2)
    rw [abs_of_pos (by norm_num : (0:ℝ) < 981/100)]
    norm_num
  refine ⟨⟨rfl, rfl, rfl, rfl, hsafe⟩, ?_⟩
  exact step_center_degenerate_safe (mkState 1 (1/2) 4 0 0 0 0 (1/10)) (1/100)
    rfl rfl rfl rfl
    (by show (0:ℝ) ≤ 1 * (1 - 1/2); norm_num)
    (by show (1:ℝ) * (1 - 1/2) ≤ 1; norm_num)
    hsafe

/-- The ball centre resting exactly on vane 0 (between its endpoints). -/
def c8State : Phys := mkState 1 (1/2) 4 (7/10) 0 0 0 (1/10)

/-- C8 counterexample: with the ball centre exactly on vane 0, the vane test
enters its resolution branch with `dist = 0` and divides by zero to build the
unit normal (`distX / dist`) — there is no guard.  In the embedding the whole
collision pass returns `none`, the model of the NaN that poisons the JS ball
state. -/
theorem degenerate_vane_counterexample :
    vaneT c8State 0 = 2/5
    ∧ vaneDist c8State 0 = 0
    ∧ 0 < c8State.ball.radius
    ∧ handleCollisions c8State = none := by
  have hv := vane0_eval c8State rfl rfl
  have ht : vaneT c8State 0 = 2/5 := by
    rw [hv.2.1]
    show (2:ℝ) * ((7:ℝ)/10 - 1/2) = 2/5
    norm_num
  have hdist : vaneDist c8State 0 = 0 := by
    rw [hv.2.2.2.2]
    show |(0:ℝ)| = 0
    simp
  have hwallskip : wallPhase c8State = some (c8State, []) := by
    apply wallPhase_skip
    rw [show ballDist c8State = 7/10 from by
      show norm2 (7/10) 0 = 7/10
      exact norm2_eq_of _ _ _ (by norm_num) (by norm_num)]
    show (7:ℝ)/10 + 1/10 ≤ 1
    norm_num
  have hvane0 : vaneStep c8State 0 = none := by
    rw [vaneStep, if_neg (by rw [hv.1]; norm_num), if_pos ?_, if_pos ?_, if_pos hdist]
    · rw [hdist]
      show (0:ℝ) < 1/10
      norm_num
    · rw [ht]
      constructor <;> norm_num
  have hcheck : checkVaneCollisions c8State = none := by
    rw [checkVaneCollisions, show List.range c8State.vaneCount.toNat = [0, 1, 2, 3] from rfl]
    simp [hvane0]
  refine ⟨ht, hdist, by show (0:ℝ) < 1/10; norm_num, ?_⟩
  rw [handleCollisions, hwallskip]
  simp [hcheck]

/-! ### Lint trap (C7) and debounce (C5) -/

/-- C7: with the lint trap enabled an impact below the threshold emits no
event and leaves the debounce slot untouched; with the lint trap disabled
the same impact (slot not already holding this id) emits one event. -/
theorem lint_trap_filter (thresh speed : ℝ) (slot : Option String) (id : String)
    (hspeed : speed < thresh) (hslot : slot ≠ some id) :
    triggerCollision true thresh slot id speed = (slot, false)
    ∧ triggerCollision false thresh slot id speed = (some id, true) := by
  constructor
  · rw [triggerCollision, if_pos ⟨rfl, hspeed⟩]
  · rw [triggerCollision, if_neg (by simp), if_neg hslot]

/-- C7 witness: a slow impact on the `drum_0` surface. -/
theorem lint_trap_filter_witness :
    ((1:ℝ)/10 < 3/20 ∧ (none : Option String) ≠ some "drum_0")
    ∧ (triggerCollision true (3/20) none "drum_0" (1/10) = (none, false)
      ∧ triggerCollision false (3/20) none "drum_0" (1/10) = (some "drum_0", true)) := by
  have h1 : (1:ℝ)/10 < 3/20 := by norm_num
  have h2 : (none : Option String) ≠ some "drum_0" := by simp
  exact ⟨⟨h1, h2⟩, lint_trap_filter (3/20) (1/10) none "drum_0" h1 h2⟩

/-- Two impacts through the timed debounce model, from a clear state: the
second impact is suppressed exactly when the 50 ms timer has not yet fired
and the surface id is the same. -/
lemma runTriggers_two (t₁ t₂ : ℝ) (id₁ id₂ : String) (s₁ s₂ thresh : ℝ) :
    runTriggers false thresh [(t₁, id₁, s₁), (t₂, id₂, s₂)] =
      if t₁ + 50 ≤ t₂ then 2 else if id₂ = id₁ then 1 else 2 := by
  by_cases hfire : t₁ + 50 ≤ t₂
  · simp [runTriggers, processTrigger, fireTimers, triggerCollision, hfire]
  · by_cases hid : id₂ = id₁
    · simp [runTriggers, processTrigger, fireTimers, triggerCollision, hfire, hid]
    · simp [runTriggers, processTrigger, fireTimers, triggerCollision, hfire, hid,
        Ne.symm hid]

/-- C5: two impacts on the same surface id less than 50 ms apart emit exactly
one event; at least 50 ms apart, two events; an impact on a different surface
id during the cooldown window is not suppressed (two events).  The model is
the single-slot `lastCollisionSurface` plus the `setTimeout(50)` clears,
with timers firing at their scheduled instant. -/
theorem collision_debounce (t₁ t₂ u₁ u₂ w₁ w₂ : ℝ) (a b c : String)
    (s₁ s₂ s₃ s₄ s₅ s₆ thresh : ℝ)
    (hfast : t₂ < t₁ + 50) (hslow : u₁ + 50 ≤ u₂)
    (hdiff : c ≠ b) (hfast2 : w₂ < w₁ + 50) :
    runTriggers false thresh [(t₁, a, s₁), (t₂, a, s₂)] = 1
    ∧ runTriggers false thresh [(u₁, a, s₃), (u₂, a, s₄)] = 2
    ∧ runTriggers false thresh [(w₁, b, s₅), (w₂, c, s₆)] = 2 := by
  refine ⟨?_, ?_, ?_⟩
  · rw [runTriggers_two, if_neg (not_le.mpr hfast), if_pos rfl]
  · rw [runTriggers_two, if_pos hslow]
  · rw [runTriggers_two, if_neg (not_le.mpr hfast2), if_neg hdiff]

/-- C5 witness: impacts at 0 ms and 10 ms on `drum_0` (one event), at 0 ms
and 60 ms on `drum_0` (two events), and at 0 ms on `drum_0` then 10 ms on
`drum_1` (two events). -/
theorem collision_debounce_witness :
    ((10 : ℝ) < 0 + 50 ∧ (0 : ℝ) + 50 ≤ 60 ∧ ("drum_1" : String) ≠ "drum_0")
    ∧ (runTriggers false (3/20) [((0:ℝ), "drum_0", (1:ℝ)), ((10:ℝ), "drum_0", (1:ℝ))] = 1
      ∧ runTriggers false (3/20) [((0:ℝ), "drum_0", (1:ℝ)), ((60:ℝ), "drum_0", (1:ℝ))] = 2
      ∧ runTriggers false (3/20) [((0:ℝ), "drum_0", (1:ℝ)), ((10:ℝ), "drum_1", (1:ℝ))] = 2) := by
  have h1 : (10 : ℝ) < 0 + 50 := by norm_num
  have h2 : (0 : ℝ) + 50 ≤ 60 := by norm_num
  have h3 : ("drum_1" : String) ≠ "drum_0" := by decide
  exact ⟨⟨h1, h2, h3⟩,
    collision_debounce 0 10 0 60 0 10 "drum_0" "drum_0" "drum_1" 1 1 1 1 1 1 (3/20)
      h1 h2 h3 h1⟩

end

end Dryer
